import Mathlib

/-!
Verification development for the `06.auto-ml-sparse-data-custom-cv-split.ipynb`
notebook.  The notebook is a linear script of calls into external systems
(the Azure ML SDK, scikit-learn, pandas_ml).  We embed it shallowly: the
results of every external call are supplied by an `Env` record, the script
itself is a monadic program over a writer/except monad `M` that records the
sequence of external calls and display actions (`Event`s) and propagates the
first raised exception.  Pure glue code (dict building, list comprehensions,
Python `int()` parsing, Python list indexing) is translated directly.
-/

namespace NB

/-- Python exception values as they flow through the script: `ext` is an
opaque exception produced by an external call (tagged by an arbitrary
site name and payload chosen by the environment); the other constructors
are the built-in exception classes the notebook's own glue code can raise. -/
inductive PyErr
  | ext (site : String) (code : Nat)
  | keyError (k : String)
  | valueError (msg : String)
  | indexError (msg : String)
deriving DecidableEq, Repr

/-- Python values appearing in a run's metric dictionary.  `float` carries an
opaque rational stand-in for the IEEE value, which the notebook never
arithmetizes; `isinstance(v, float)` is `isFloat`. -/
inductive PyVal
  | float (q : ℚ)
  | int (n : ℤ)
  | bool (b : Bool)
  | str (s : String)
  | none
deriving DecidableEq, Repr

/-- The Python `isinstance(v, float)` test (bools and ints are not floats). -/
def PyVal.isFloat : PyVal → Bool
  | .float _ => true
  | _ => false

/-- The workspace handle returned by `Workspace.from_config()`; only the
attributes the notebook reads for display. -/
structure Workspace where
  name : String
  subscription_id : String
  resource_group : String
  location : String
deriving DecidableEq, Repr

/-- The bunch returned by `fetch_20newsgroups`: document texts plus integer
class labels, aligned by position. -/
structure Dataset where
  data : List String
  target : List Int
deriving DecidableEq, Repr

/-- The keyword arguments of a `fetch_20newsgroups` call. -/
structure FetchArgs where
  subset : String
  categories : List String
  shuffle : Bool
  random_state : Nat
  remove : List String
deriving DecidableEq, Repr

/-- The constructor arguments of a `HashingVectorizer`. -/
structure HVParams where
  stop_words : String
  alternate_sign : Bool
  n_features : Nat
deriving DecidableEq, Repr

/-- A sparse matrix as the notebook sees it: a column count and one sparse
row (index/value pairs) per document. -/
structure SMatrix where
  nCols : Nat
  rows : List (List (Nat × ℚ))
deriving DecidableEq, Repr

/-- A value inside the flat `AutoMLConfig` key/value record. -/
inductive ConfigVal
  | s (v : String)
  | n (v : Nat)
  | b (v : Bool)
  | verbosityINFO
  | mat (m : SMatrix)
  | labels (ys : List Int)
deriving DecidableEq, Repr

/-- One observable action of the script: an external call (with the
arguments the notebook passes) or a display action. -/
inductive Event
  | workspaceFromConfig
  | experimentCreate (wsName : String) (expName : String)
  | setPandasOption
  | displayDF
  | setDiagnostics (send : Bool)
  | fetchNews (args : FetchArgs)
  | trainTestSplit (n : Nat)
  | hvTransform (p : HVParams) (nDocs : Nat)
  | buildConfig (cfg : List (String × ConfigVal))
  | submit (cfg : List (String × ConfigVal)) (showOutput : Bool)
  | runDetailsShow (runId : Nat)
  | getChildren (runId : Nat)
  | getProperties (child : Nat)
  | getMetrics (child : Nat)
  | getOutput (runId : Nat)
  | registerModel (description : String) (tags : Option String)
  | displayStr (s : String)
  | loadDigits
  | predictCall (model : Nat) (nRows : Nat)
  | confusionMatrixCall (ytrue ypred : List String)
  | printCM
  | plotCM
deriving DecidableEq, Repr

/-- The environment: the outcome of every external call the notebook makes.
Each field is the result (or raised exception) that the external world
returns at the corresponding call site of the notebook.

Modelled from the spec where the external semantics matters: the notebook's
own markdown states that for local runs `experiment.submit` is synchronous,
so `submitRun` returns the (already completed) run's handle; the
`HashingVectorizer` is stateless, so its `transform` output is a pure
function `hashRow` of the constructor parameters and the document (or a
raised exception `transformErr`); `train_test_split`'s shuffling for the
given `random_state` is the permutation `splitPerm` and its `test_size=0.33`
row count is `splitNTest`. -/
structure Env where
  workspace : Except PyErr Workspace
  experimentRes : Except PyErr Nat
  set_diagnostics : Except PyErr Unit
  fetch_20newsgroups : FetchArgs → Except PyErr Dataset
  splitPerm : Nat → List Nat
  splitNTest : Nat → Nat
  hashRow : HVParams → String → List (Nat × ℚ)
  transformErr : HVParams → List String → Option PyErr
  configRes : Except PyErr Unit
  submitRun : Except PyErr Nat
  runDetailsRes : Except PyErr Unit
  get_children : Except PyErr (List Nat)
  get_properties : Nat → Except PyErr (List (String × String))
  get_metrics : Nat → Except PyErr (List (String × PyVal))
  get_output : Except PyErr (Nat × Nat)
  register_model : Except PyErr Unit
  model_id : String
  load_digits : Except PyErr Nat
  predict : Nat → SMatrix → Except PyErr (List Int)
  confusionMatrix : List String → List String → Except PyErr Nat

/-- The script monad: a computation yields either a value or the first
raised exception (`res`), together with the list of events performed
(`trace`, also on the path that raises, up to the raise). -/
structure M (α : Type) where
  res : Except PyErr α
  trace : List Event
deriving Repr

instance : Monad M where
  pure a := ⟨Except.ok a, []⟩
  bind x f :=
    match x.res with
    | Except.ok a => ⟨(f a).res, x.trace ++ (f a).trace⟩
    | Except.error e => ⟨Except.error e, x.trace⟩

/-- Perform an external call: record the event, then adopt the result the
environment returns for that call. -/
def call (ev : Event) (r : Except PyErr α) : M α := ⟨r, [ev]⟩

/-- Record a pure display action. -/
def emit (ev : Event) : M Unit := ⟨Except.ok (), [ev]⟩

/-- Run a pure fallible computation (notebook-local glue code). -/
def liftE (r : Except PyErr α) : M α := ⟨r, []⟩

instance {ε β : Type} [DecidableEq ε] [DecidableEq β] :
    DecidableEq (Except ε β) := fun x y =>
  match x, y with
  | .ok a, .ok b =>
      if h : a = b then isTrue (by rw [h]) else
        isFalse (fun hh => h (Except.ok.inj hh))
  | .error e, .error f =>
      if h : e = f then isTrue (by rw [h]) else
        isFalse (fun hh => h (Except.error.inj hh))
  | .ok _, .error _ => isFalse (fun hh => Except.noConfusion hh)
  | .error _, .ok _ => isFalse (fun hh => Except.noConfusion hh)

/-! ## Python glue semantics -/

/-- Python dict lookup `d[k]` on a string-keyed dict: the stored value, or a
raised `KeyError`. -/
def pyDictGet (d : List (String × α)) (k : String) : Except PyErr α :=
  match d.find? (fun kv => kv.1 == k) with
  | some kv => Except.ok kv.2
  | none => Except.error (PyErr.keyError k)

/-- Strip leading and trailing whitespace from a character list. -/
def trimWS (l : List Char) : List Char :=
  ((l.dropWhile Char.isWhitespace).reverse.dropWhile Char.isWhitespace).reverse

/-- The value of a nonempty list of decimal digits. -/
def digitCharsToNat (l : List Char) : Nat :=
  l.foldl (fun n c => n * 10 + (c.toNat - '0'.toNat)) 0

/-- A nonempty all-digit character list, or nothing. -/
def parseDigits (l : List Char) : Option Nat :=
  if l ≠ [] ∧ l.all Char.isDigit then some (digitCharsToNat l) else none

/-- Python `int(s)` on a string: optional surrounding whitespace, an optional
sign, then decimal digits; anything else raises `ValueError`. -/
def pyIntOfString (s : String) : Except PyErr Int :=
  match trimWS s.data with
  | '-' :: rest =>
      match parseDigits rest with
      | some n => Except.ok (-(n : Int))
      | none => Except.error (PyErr.valueError s)
  | '+' :: rest =>
      match parseDigits rest with
      | some n => Except.ok (n : Int)
      | none => Except.error (PyErr.valueError s)
  | l =>
      match parseDigits l with
      | some n => Except.ok (n : Int)
      | none => Except.error (PyErr.valueError s)

/-- Python list indexing `xs[i]` with an integer index: negative indices
count from the end; an index out of range raises `IndexError`. -/
def pyListGet (xs : List α) (i : Int) : Except PyErr α :=
  let j := if i < 0 then i + xs.length else i
  if 0 ≤ j then
    match xs.get? j.toNat with
    | some a => Except.ok a
    | none => Except.error (PyErr.indexError "list index out of range")
  else Except.error (PyErr.indexError "list index out of range")

/-- The list comprehension `[xs[i] for i in idx]`: element order preserved,
first failing lookup raises. -/
def pyListComp (xs : List α) : List Int → Except PyErr (List α)
  | [] => Except.ok []
  | i :: rest => do
      let a ← pyListGet xs i
      let as ← pyListComp xs rest
      pure (a :: as)

/-- Python dict assignment `d[k] = v` on an int-keyed dict kept as an
insertion-ordered association list: an existing key has its value replaced
in place, a new key is appended. -/
def dictInsert (d : List (Int × α)) (k : Int) (v : α) : List (Int × α) :=
  if d.any (fun kv => kv.1 == k) then
    d.map (fun kv => if kv.1 == k then (k, v) else kv)
  else d ++ [(k, v)]

/-- Lookup in the int-keyed dict. -/
def dictLookup (d : List (Int × α)) (k : Int) : Option α :=
  match d.find? (fun kv => kv.1 == k) with
  | some kv => some kv.2
  | none => none

/-! ## The notebook's constants (cells 4, 8, 10, 26, 28 of the source) -/

def experiment_name : String := "automl-local-missing-data"

def project_folder : String := "./sample_projects/automl-local-missing-data"

def removeFields : List String := ["headers", "footers", "quotes"]

def categories : List String :=
  ["alt.atheism", "talk.religion.misc", "comp.graphics", "sci.space"]

/-- Arguments of the training-data fetch in cell 8. -/
def trainFetchArgs : FetchArgs := ⟨"train", categories, true, 42, removeFields⟩

/-- Arguments of the test-data fetch in cell 28. -/
def testFetchArgs : FetchArgs := ⟨"test", categories, true, 42, removeFields⟩

/-- The `HashingVectorizer(stop_words='english', alternate_sign=False,
n_features=2**16)` constructed in cell 8 (training time). -/
def vectorizerTrain : HVParams := ⟨"english", false, 2 ^ 16⟩

/-- The `HashingVectorizer(stop_words='english', alternate_sign=False,
n_features=2**16)` constructed in cell 28 (evaluation time). -/
def vectorizerTest : HVParams := ⟨"english", false, 2 ^ 16⟩

/-- Select the elements of `xs` at the positions in `idx` (invalid positions
contribute nothing); the same index list is applied to features and labels,
which is what keeps them aligned. -/
def listSel (idx : List Nat) (xs : List α) : List α :=
  idx.filterMap (fun i => xs.get? i)

/-- Modelled from the spec: scikit-learn's `train_test_split(X, y,
test_size=0.33, random_state=42)` first checks that the two arrays have
consistent lengths (raising `ValueError` otherwise), then applies one shuffled
index permutation (`perm`, seeded by `random_state`) to both arrays jointly
and returns `(X_train, X_test, y_train, y_test)` where the test part is the
first `nTest` selected rows and the train part the remaining rows. -/
def train_test_split (docs : List String) (target : List Int)
    (perm : List Nat) (nTest : Nat) :
    Except PyErr (List String × List String × List Int × List Int) :=
  if docs.length = target.length then
    Except.ok (listSel (perm.drop nTest) docs, listSel (perm.take nTest) docs,
      listSel (perm.drop nTest) target, listSel (perm.take nTest) target)
  else Except.error (PyErr.valueError "inconsistent numbers of samples")

/-- Modelled from the spec: `vectorizer.transform(docs)` on a stateless
`HashingVectorizer` either raises, or returns a sparse matrix with
`n_features` columns and one hashed row per document. -/
def transform (env : Env) (p : HVParams) (docs : List String) :
    Except PyErr SMatrix :=
  match env.transformErr p docs with
  | some e => Except.error e
  | none => Except.ok ⟨p.n_features, docs.map (env.hashRow p)⟩

/-! ## The notebook, cell by cell -/

/-- The locals produced by cell 8 (data preparation): the two sparse
matrices, the two label vectors, and the document lists they came from. -/
structure Prep where
  X_train : SMatrix
  X_validation : SMatrix
  y_train : List Int
  y_validation : List Int
  docs_train : List String
  docs_validation : List String
deriving DecidableEq, Repr

/-- The flat key/value record built by the `AutoMLConfig(...)` call of
cell 10, in the keyword order of the source. -/
def automlConfigRecord (p : Prep) : List (String × ConfigVal) :=
  [("task", ConfigVal.s "classification"),
   ("debug_log", ConfigVal.s "automl_errors.log"),
   ("primary_metric", ConfigVal.s "AUC_weighted"),
   ("max_time_sec", ConfigVal.n 3600),
   ("iterations", ConfigVal.n 5),
   ("preprocess", ConfigVal.b false),
   ("verbosity", ConfigVal.verbosityINFO),
   ("X", ConfigVal.mat p.X_train),
   ("y", ConfigVal.labels p.y_train),
   ("X_valid", ConfigVal.mat p.X_validation),
   ("y_valid", ConfigVal.labels p.y_validation),
   ("path", ConfigVal.s project_folder)]

/-- Cell 4: `Workspace.from_config()`, `Experiment(ws, experiment_name)`,
the pandas display option, and the summary `DataFrame` display. -/
def cell4 (env : Env) : M (Workspace × Nat) := do
  let ws ← call Event.workspaceFromConfig env.workspace
  let ex ← call (Event.experimentCreate ws.name experiment_name) env.experimentRes
  emit Event.setPandasOption
  emit Event.displayDF
  pure (ws, ex)

/-- Cell 6: `set_diagnostics_collection(send_diagnostics=True)`. -/
def cell6 (env : Env) : M Unit :=
  call (Event.setDiagnostics true) env.set_diagnostics

/-- Cell 8: fetch the 20-newsgroups training data, split it, vectorize both
parts, and display the summary table. -/
def cell8 (env : Env) : M Prep := do
  let dtr ← call (Event.fetchNews trainFetchArgs) (env.fetch_20newsgroups trainFetchArgs)
  let q ← call (Event.trainTestSplit dtr.data.length)
    (train_test_split dtr.data dtr.target (env.splitPerm dtr.data.length)
      (env.splitNTest dtr.data.length))
  let Xtr ← call (Event.hvTransform vectorizerTrain q.1.length)
    (transform env vectorizerTrain q.1)
  let Xva ← call (Event.hvTransform vectorizerTrain q.2.1.length)
    (transform env vectorizerTrain q.2.1)
  emit Event.displayDF
  pure ⟨Xtr, Xva, q.2.2.1, q.2.2.2, q.1, q.2.1⟩

/-- Cell 10: the `AutoMLConfig(...)` call; the record is built from the
keyword arguments, and the construction itself may raise. -/
def cell10 (env : Env) (p : Prep) : M (List (String × ConfigVal)) := do
  let cfg := automlConfigRecord p
  let _ ← call (Event.buildConfig cfg) env.configRes
  pure cfg

/-- Cell 12: `local_run = experiment.submit(automl_config, show_output=True)`.
Modelled from the spec and the notebook's own markdown ("For Local runs the
execution is synchronous"): the call blocks and its returned handle refers
to the already completed run. -/
def cell12 (env : Env) (cfg : List (String × ConfigVal)) : M Nat :=
  call (Event.submit cfg true) env.submitRun

/-- Cell 15: `RunDetails(local_run).show()`. -/
def cell15 (env : Env) (run : Nat) : M Unit :=
  call (Event.runDetailsShow run) env.runDetailsRes

/-- The body of the child-run loop of cell 17, iterated over `children`:
`properties = run.get_properties()`, the float-filtering metric
comprehension over `run.get_metrics()`, and
`metricslist[int(properties['iteration'])] = metrics`. -/
def childrenLoop (env : Env) :
    List Nat → List (Int × List (String × PyVal)) →
    M (List (Int × List (String × PyVal)))
  | [], d => pure d
  | c :: rest, d => do
      let props ← call (Event.getProperties c) (env.get_properties c)
      let ms ← call (Event.getMetrics c) (env.get_metrics c)
      let s ← liftE (pyDictGet props "iteration")
      let k ← liftE (pyIntOfString s)
      childrenLoop env rest (dictInsert d k (ms.filter (fun kv => kv.2.isFloat)))

/-- Cell 17: `children = list(local_run.get_children())`, the metrics loop,
and the `rundata` DataFrame display. -/
def cell17 (env : Env) (run : Nat) : M (List (Int × List (String × PyVal))) := do
  let cs ← call (Event.getChildren run) env.get_children
  let d ← childrenLoop env cs []
  emit Event.displayDF
  pure d

/-- Cell 20: `best_run, fitted_model = local_run.get_output()`. -/
def cell20 (env : Env) (run : Nat) : M (Nat × Nat) :=
  call (Event.getOutput run) env.get_output

/-- Cell 26: `local_run.register_model(description='AutoML Model',
tags=None)` and the display of `local_run.model_id`. -/
def cell26 (env : Env) (_run : Nat) : M Unit := do
  let _ ← call (Event.registerModel "AutoML Model" none) env.register_model
  emit (Event.displayStr env.model_id)

/-- Cell 28: the leftover `datasets.load_digits()` call, the test-data fetch,
the evaluation-time vectorizer, `fitted_model.predict(X_test)`, the two
label-to-category-name comprehensions, and the confusion matrix with its
print and plot. -/
def cell28 (env : Env) (model : Nat) : M Unit := do
  let _ ← call Event.loadDigits env.load_digits
  let dte ← call (Event.fetchNews testFetchArgs) (env.fetch_20newsgroups testFetchArgs)
  let Xte ← call (Event.hvTransform vectorizerTest dte.data.length)
    (transform env vectorizerTest dte.data)
  let yp ← call (Event.predictCall model Xte.rows.length) (env.predict model Xte)
  let ps ← liftE (pyListComp categories yp)
  let ts ← liftE (pyListComp categories dte.target)
  let _ ← call (Event.confusionMatrixCall ts ps) (env.confusionMatrix ts ps)
  emit Event.printCM
  emit Event.plotCM

/-- The whole notebook, cells in source order. -/
def runNotebook (env : Env) : M Unit := do
  let _ ← cell4 env
  cell6 env
  let p ← cell8 env
  let cfg ← cell10 env p
  let run ← cell12 env cfg
  cell15 env run
  let _ ← cell17 env run
  let out ← cell20 env run
  cell26 env run
  cell28 env out.2

/-! ## A concrete sample environment (used by witnesses) -/

/-- A small training bunch: three documents, labels 0, 1, 2. -/
def sampleTrain : Dataset := ⟨["doc a", "doc b", "doc c"], [0, 1, 2]⟩

/-- A small test bunch, disjoint from `sampleTrain`. -/
def sampleTest : Dataset := ⟨["doc u", "doc v"], [1, 0]⟩

/-- A fully successful environment with one child run. -/
def sampleEnv : Env where
  workspace := Except.ok ⟨"ws", "sub", "rg", "eastus"⟩
  experimentRes := Except.ok 1
  set_diagnostics := Except.ok ()
  fetch_20newsgroups := fun a =>
    if a.subset = "test" then Except.ok sampleTest else Except.ok sampleTrain
  splitPerm := fun _ => [2, 0, 1]
  splitNTest := fun _ => 1
  hashRow := fun _ _ => [(0, (1 : ℚ))]
  transformErr := fun _ _ => none
  configRes := Except.ok ()
  submitRun := Except.ok 100
  runDetailsRes := Except.ok ()
  get_children := Except.ok [7]
  get_properties := fun _ => Except.ok [("iteration", "0")]
  get_metrics := fun _ => Except.ok [("AUC_weighted", PyVal.float 1)]
  get_output := Except.ok (5, 9)
  register_model := Except.ok ()
  model_id := "mid"
  load_digits := Except.ok 0
  predict := fun _ X => Except.ok (X.rows.map (fun _ => 0))
  confusionMatrix := fun _ _ => Except.ok 0

/-- The `Prep` value that `cell8` produces under `sampleEnv`. -/
def samplePrep : Prep :=
  ⟨⟨2 ^ 16, [[(0, (1 : ℚ))], [(0, (1 : ℚ))]]⟩,
   ⟨2 ^ 16, [[(0, (1 : ℚ))]]⟩,
   [0, 1], [2], ["doc a", "doc b"], ["doc c"]⟩

/-- The test matrix that `transform` produces from `sampleTest` under
`sampleEnv`. -/
def sampleXtest : SMatrix := ⟨2 ^ 16, [[(0, (1 : ℚ))], [(0, (1 : ℚ))]]⟩

/-- `sampleEnv` with a failing dataset fetch. -/
def envFailFetch : Env :=
  { sampleEnv with
    fetch_20newsgroups := fun _ => Except.error (PyErr.ext "urlopen" 404) }

/-- `sampleEnv` whose one child run carries an `'iteration'` property that
`int()` cannot parse — a difference only in a value contained in a returned
record. -/
def envBadIteration : Env :=
  { sampleEnv with
    get_properties := fun _ => Except.ok [("iteration", "zz")] }

/-- `sampleEnv` with different (but still well-formed) values in all the
returned records: run id, metrics, best run, model id. -/
def envRecordsVaried : Env :=
  { sampleEnv with
    submitRun := Except.ok 200
    get_metrics := fun _ => Except.ok [("accuracy", PyVal.float 2)]
    get_output := Except.ok (6, 10)
    model_id := "other" }

/-! ## Classifiers over events -/

/-- The step of the seven-step outline that an event unambiguously marks:
(1) construct the Experiment, (2) fetch the training data, (3) build the
configuration record, (4) submit, (5) poll/display progress and child-run
metrics, (6) fetch the best run and model, (7) evaluate the fitted model. -/
def stepOf : Event → Option Nat
  | Event.experimentCreate _ _ => some 1
  | Event.fetchNews a => if a.subset = "train" then some 2 else
      if a.subset = "test" then some 7 else none
  | Event.buildConfig _ => some 3
  | Event.submit _ _ => some 4
  | Event.runDetailsShow _ => some 5
  | Event.getChildren _ => some 5
  | Event.getProperties _ => some 5
  | Event.getMetrics _ => some 5
  | Event.getOutput _ => some 6
  | Event.predictCall _ _ => some 7
  | Event.confusionMatrixCall _ _ => some 7
  | _ => none

/-- The listed-step markers performed by the notebook, in execution order. -/
def stepsOf (env : Env) : List Nat :=
  (runNotebook env).trace.filterMap stepOf

/-- Whether an event mutates external or process state (as opposed to
reading, displaying or printing): the pandas display option, the
diagnostics opt-in, the run submission, and the model registration. -/
def isEffect : Event → Bool
  | Event.setPandasOption => true
  | Event.setDiagnostics _ => true
  | Event.submit _ _ => true
  | Event.registerModel _ _ => true
  | _ => false

/-- The non-display effects of a trace. -/
def effectsOf (t : List Event) : List Event := t.filter isEffect

/-- Whether an event is the run submission. -/
def isSubmitEvt : Event → Bool
  | Event.submit _ _ => true
  | _ => false

/-- Whether an event is one of the operations the notebook performs on the
returned run handle: the RunDetails display, `get_children`, `get_output`,
or `register_model`. -/
def isHandleOp : Event → Bool
  | Event.runDetailsShow _ => true
  | Event.getChildren _ => true
  | Event.getOutput _ => true
  | Event.registerModel _ _ => true
  | _ => false

/-- Whether an event carries a configuration record (the `AutoMLConfig`
construction or the submission). -/
def isCfgCarrier : Event → Bool
  | Event.buildConfig _ => true
  | Event.submit _ _ => true
  | _ => false

/-- Two environments that agree on everything except the values contained in
the records the external service returns (the run handle, the child runs and
their properties/metric mappings, the best run, the fitted model and its
predictions, and the model id). -/
def RecordAgree (e1 e2 : Env) : Prop :=
  e1.workspace = e2.workspace ∧
  e1.experimentRes = e2.experimentRes ∧
  e1.set_diagnostics = e2.set_diagnostics ∧
  e1.fetch_20newsgroups = e2.fetch_20newsgroups ∧
  e1.splitPerm = e2.splitPerm ∧
  e1.splitNTest = e2.splitNTest ∧
  e1.hashRow = e2.hashRow ∧
  e1.transformErr = e2.transformErr ∧
  e1.configRes = e2.configRes ∧
  e1.runDetailsRes = e2.runDetailsRes ∧
  e1.register_model = e2.register_model ∧
  e1.load_digits = e2.load_digits ∧
  e1.confusionMatrix = e2.confusionMatrix

/-- The ten keys the specification enumerates for the configuration
record (stated from the spec's words, for comparison with
`automlConfigRecord`). -/
def specConfigKeys : List String :=
  ["task", "primary_metric", "max_time_sec", "iterations", "preprocess",
   "X", "y", "X_valid", "y_valid", "path"]

/-- The pure outcome of processing one child run in the cell-17 loop:
the parsed iteration key and the float-filtered metrics row. -/
def childPure (env : Env) (c : Nat) :
    Except PyErr (Int × List (String × PyVal)) := do
  let props ← env.get_properties c
  let ms ← env.get_metrics c
  let s ← pyDictGet props "iteration"
  let k ← pyIntOfString s
  pure (k, ms.filter (fun kv => kv.2.isFloat))

/-! ## Basic lemmas about the monad -/

theorem M.bind_ok (a : α) (t : List Event) (f : α → M β) :
    (M.mk (Except.ok a) t >>= f) = ⟨(f a).res, t ++ (f a).trace⟩ := rfl

theorem M.bind_error (e : PyErr) (t : List Event) (f : α → M β) :
    (M.mk (α := α) (Except.error e) t >>= f) = ⟨Except.error e, t⟩ := rfl

theorem M.pure_def (a : α) : (pure a : M α) = ⟨Except.ok a, []⟩ := rfl

theorem M.res_bind (x : M α) (f : α → M β) :
    (x >>= f).res = match x.res with
      | .ok a => (f a).res
      | .error e => .error e := by
  rcases x with ⟨v, t⟩; cases v <;> rfl

theorem M.trace_bind (x : M α) (f : α → M β) :
    (x >>= f).trace = match x.res with
      | .ok a => x.trace ++ (f a).trace
      | .error _ => x.trace := by
  rcases x with ⟨v, t⟩; cases v <;> rfl

/-! ## Lemmas about the Python list indexing glue -/

theorem pyListGet_isOk_iff (xs : List α) (i : Int) :
    (pyListGet xs i).isOk = true ↔ -(xs.length : Int) ≤ i ∧ i < xs.length := by
  unfold pyListGet
  by_cases hi : i < 0 <;> simp only [hi, if_true, if_false, ite_true, ite_false]
  · by_cases h0 : (0 : Int) ≤ i + xs.length
    · simp only [h0, if_true, ite_true]
      rcases hg : xs.get? (i + xs.length).toNat with _ | a
      · rw [List.get?_eq_none] at hg
        simp only [Except.isOk]
        constructor
        · intro h; cases h
        · intro h; omega
      · have := List.get?_eq_getElem? xs (i + (xs.length : Int)).toNat ▸ hg
        have hlt : (i + (xs.length : Int)).toNat < xs.length := by
          by_contra hc
          rw [List.getElem?_eq_none (by omega)] at this
          cases this
        simp only [Except.isOk]
        constructor
        · intro _; omega
        · intro _; rfl
    · simp only [h0, if_false, ite_false, Except.isOk]
      constructor
      · intro h; cases h
      · intro h; omega
  · by_cases h0 : (0 : Int) ≤ i
    · simp only [h0, if_true, ite_true]
      rcases hg : xs.get? i.toNat with _ | a
      · rw [List.get?_eq_none] at hg
        simp only [Except.isOk]
        constructor
        · intro h; cases h
        · intro h; omega
      · have := List.get?_eq_getElem? xs i.toNat ▸ hg
        have hlt : i.toNat < xs.length := by
          by_contra hc
          rw [List.getElem?_eq_none (by omega)] at this
          cases this
        simp only [Except.isOk]
        constructor
        · intro _; omega
        · intro _; rfl
    · omega

theorem exc_bind_ok {ε : Type} (a : α) (f : α → Except ε β) :
    (Except.ok a >>= f) = f a := rfl

theorem exc_bind_error {ε : Type} (e : ε) (f : α → Except ε β) :
    ((Except.error e : Except ε α) >>= f) = Except.error e := rfl

theorem pyListComp_nil (xs : List α) : pyListComp xs [] = Except.ok [] := rfl

theorem pyListComp_cons (xs : List α) (i : Int) (rest : List Int) :
    pyListComp xs (i :: rest) =
      (pyListGet xs i >>= fun a =>
        pyListComp xs rest >>= fun as => pure (a :: as)) := rfl

theorem pyListComp_ok_iff (xs : List α) (idx : List Int) :
    (pyListComp xs idx).isOk = true ↔
      ∀ i ∈ idx, (pyListGet xs i).isOk = true := by
  induction idx with
  | nil =>
      constructor
      · intro _ j hj; cases hj
      · intro _; rfl
  | cons i rest ih =>
      rw [pyListComp_cons]
      rcases h : pyListGet xs i with e | a
      · rw [exc_bind_error]
        simp only [Except.isOk, List.mem_cons]
        constructor
        · intro hh; cases hh
        · intro hh
          have := hh i (Or.inl rfl)
          rw [h] at this
          cases this
      · rw [exc_bind_ok]
        rcases hc : pyListComp xs rest with e2 | out
        · rw [hc] at ih
          rw [exc_bind_error]
          simp only [Except.isOk, List.mem_cons] at ih ⊢
          constructor
          · intro hh; cases hh
          · intro hh
            have : ∀ i ∈ rest, (pyListGet xs i).isOk = true :=
              fun j hj => hh j (Or.inr hj)
            exact absurd (ih.2 this) (by intro hx; cases hx)
        · rw [hc] at ih
          rw [exc_bind_ok]
          simp only [Except.isOk, List.mem_cons] at ih ⊢
          constructor
          · intro _ j hj
            rcases hj with rfl | hj
            · rw [h]; rfl
            · exact ih.1 rfl j hj
          · intro _; rfl

theorem pyListComp_ok_forall₂ (xs : List α) (idx : List Int)
    (out : List α) (h : pyListComp xs idx = Except.ok out) :
    List.Forall₂ (fun i a => pyListGet xs i = Except.ok a) idx out := by
  induction idx generalizing out with
  | nil =>
      rw [pyListComp_nil] at h
      cases h
      exact List.Forall₂.nil
  | cons i rest ih =>
      rw [pyListComp_cons] at h
      rcases hg : pyListGet xs i with e | a <;> rw [hg] at h
      · rw [exc_bind_error] at h; cases h
      · rw [exc_bind_ok] at h
        rcases hc : pyListComp xs rest with e2 | as <;> rw [hc] at h
        · rw [exc_bind_error] at h; cases h
        · rw [exc_bind_ok] at h
          cases h
          exact List.Forall₂.cons hg (ih as hc)

/-- C9, counterexample: the claimed equivalence "the comprehension is total
exactly when every index is in the range 0..3" fails at the input `[-1]`,
because Python list indexing also accepts negative indices: `categories[-1]`
succeeds (yielding the last category) although `-1` is outside 0..3. -/
theorem c9_counterexample :
    (pyListComp categories [(-1 : Int)]).isOk = true ∧
      ¬ (∀ i ∈ [(-1 : Int)], 0 ≤ i ∧ i ≤ 3) := by
  constructor
  · rfl
  · intro h
    have := (h (-1) (by simp)).1
    omega

/-- C9, amended: the comprehensions `[categories[i] for i in ys]` preserve
length and order, succeed exactly when every index is in the Python-valid
range -4..3 of the four-element `categories` list (negative indices count
from the end), in particular they are total under the precondition that
every label is one of the four classes 0..3, and some input with an index
outside 0..3 makes the lookup raise `IndexError`. -/
theorem c9_list_comprehensions (idx : List Int) :
    ((pyListComp categories idx).isOk = true ↔ ∀ i ∈ idx, -4 ≤ i ∧ i ≤ 3) ∧
    (∀ out, pyListComp categories idx = Except.ok out →
      out.length = idx.length ∧
      List.Forall₂ (fun i a => pyListGet categories i = Except.ok a) idx out) ∧
    ((∀ i ∈ idx, 0 ≤ i ∧ i ≤ 3) → (pyListComp categories idx).isOk = true) ∧
    (∃ bad : List Int, (∃ i ∈ bad, ¬ (0 ≤ i ∧ i ≤ 3)) ∧
      (pyListComp categories bad).isOk = false) := by
  have hlen : categories.length = 4 := rfl
  have hone : ∀ i : Int, (pyListGet categories i).isOk = true ↔ -4 ≤ i ∧ i ≤ 3 := by
    intro i
    rw [pyListGet_isOk_iff, hlen]
    constructor <;> intro h <;> constructor <;> omega
  refine ⟨?_, ?_, ?_, ?_⟩
  · rw [pyListComp_ok_iff]
    constructor
    · intro h i hi; exact (hone i).1 (h i hi)
    · intro h i hi; exact (hone i).2 (h i hi)
  · intro out h
    have hf := pyListComp_ok_forall₂ categories idx out h
    exact ⟨hf.length_eq.symm, hf⟩
  · intro h
    rw [pyListComp_ok_iff]
    intro i hi
    have := h i hi
    exact (hone i).2 (by omega)
  · refine ⟨[4], ⟨4, by simp, by omega⟩, rfl⟩

/-! ## Lemmas about the dict glue and the child-run loop -/

theorem find?_map_replace (k : Int) (v : β) :
    ∀ d : List (Int × β), d.any (fun kv => kv.1 == k) = true →
      (d.map (fun kv => if kv.1 == k then (k, v) else kv)).find?
        (fun kv => kv.1 == k) = some (k, v)
  | [], h => by cases h
  | hd :: tl, h => by
      by_cases hh : hd.1 = k
      · simp only [List.map_cons, hh, beq_self_eq_true, if_true, ite_true]
        rw [List.find?_cons_of_pos _ (by simp)]
      · have hb : (hd.1 == k) = false := beq_false_of_ne hh
        simp only [List.map_cons, hb, if_false, Bool.false_eq_true, ite_false]
        rw [List.find?_cons_of_neg _ (by simp [hb])]
        apply find?_map_replace k v tl
        simp only [List.any_cons, hb, Bool.false_or] at h
        exact h

theorem dictLookup_dictInsert_self (d : List (Int × β)) (k : Int) (v : β) :
    dictLookup (dictInsert d k v) k = some v := by
  unfold dictInsert dictLookup
  by_cases h : d.any (fun kv => kv.1 == k) = true
  · simp only [h, if_true]
    rw [find?_map_replace k v d h]
  · simp only [h, Bool.false_eq_true, ite_false]
    rw [List.find?_append]
    have hall : d.find? (fun kv => kv.1 == k) = none := by
      rw [List.find?_eq_none]
      intro x hx
      simp only [Bool.not_eq_true] at h
      rw [List.any_eq_false] at h
      exact h x hx
    rw [hall]
    simp [List.find?_cons_of_pos]

/-- C10: one pass of the cell-17 child-run loop keeps exactly the
float-valued metrics of `run.get_metrics()`, keyed by `int()` of the run's
`'iteration'` property; a missing property raises `KeyError` and an
unparseable one raises `ValueError`, aborting the loop; and a second child
run with the same iteration key silently overwrites the stored row of the
earlier one. -/
theorem c10_child_metrics_loop (env : Env) (c : Nat) (rest : List Nat)
    (d : List (Int × List (String × PyVal))) :
    (∀ props ms s k,
      env.get_properties c = Except.ok props →
      env.get_metrics c = Except.ok ms →
      pyDictGet props "iteration" = Except.ok s →
      pyIntOfString s = Except.ok k →
      (childrenLoop env (c :: rest) d).res =
        (childrenLoop env rest
          (dictInsert d k (ms.filter (fun kv => kv.2.isFloat)))).res ∧
      (∀ kv, kv ∈ ms.filter (fun kv => kv.2.isFloat) ↔
        kv ∈ ms ∧ kv.2.isFloat = true)) ∧
    (∀ props ms e,
      env.get_properties c = Except.ok props →
      env.get_metrics c = Except.ok ms →
      pyDictGet props "iteration" = Except.error e →
      (childrenLoop env (c :: rest) d).res = Except.error e) ∧
    (∀ props ms s e,
      env.get_properties c = Except.ok props →
      env.get_metrics c = Except.ok ms →
      pyDictGet props "iteration" = Except.ok s →
      pyIntOfString s = Except.error e →
      (childrenLoop env (c :: rest) d).res = Except.error e) ∧
    (pyIntOfString "not-an-int" = Except.error (PyErr.valueError "not-an-int")) ∧
    (∀ props : List (String × String),
      props.find? (fun kv => kv.1 == "iteration") = none →
      pyDictGet props "iteration" = Except.error (PyErr.keyError "iteration")) ∧
    (∀ (k : Int) (v1 v2 : List (String × PyVal)),
      dictLookup (dictInsert (dictInsert d k v1) k v2) k = some v2) := by
  refine ⟨?_, ?_, ?_, rfl, ?_, ?_⟩
  · intro props ms s k hp hm hs hk
    constructor
    · simp [childrenLoop, call, liftE, hp, hm, hs, hk, M.bind_ok, M.bind_error, M.pure_def]
    · intro kv
      simp [List.mem_filter]
  · intro props ms e hp hm hs
    simp [childrenLoop, call, liftE, hp, hm, hs, M.bind_ok, M.bind_error, M.pure_def]
  · intro props ms s e hp hm hs hk
    simp [childrenLoop, call, liftE, hp, hm, hs, hk, M.bind_ok, M.bind_error, M.pure_def]
  · intro props hfind
    unfold pyDictGet
    rw [hfind]
  · intro k v1 v2
    exact dictLookup_dictInsert_self _ k v2

/-- C10, witness: the loop theorem applied to the sample environment's one
child run, whose `'iteration'` property is the string `"0"`. -/
theorem c10_child_metrics_loop_witness :
    (childrenLoop sampleEnv [7] []).res =
      (childrenLoop sampleEnv []
        (dictInsert [] 0 ([("AUC_weighted", PyVal.float 1)].filter
          (fun kv => kv.2.isFloat)))).res ∧
    (∀ kv, kv ∈ [("AUC_weighted", PyVal.float 1)].filter
        (fun kv => kv.2.isFloat) ↔
      kv ∈ [("AUC_weighted", PyVal.float 1)] ∧ kv.2.isFloat = true) :=
  (c10_child_metrics_loop sampleEnv 7 [] []).1
    [("iteration", "0")] [("AUC_weighted", PyVal.float 1)] "0" 0 rfl rfl rfl rfl

/-- C9, witness: the amended theorem applied at the concrete input `[0, 3]`
(and, for the last conjunct, its concrete failing input). -/
theorem c9_list_comprehensions_witness :
    (pyListComp categories [(0 : Int), 3]).isOk = true ∧
      (["alt.atheism", "sci.space"].length = [(0 : Int), 3].length ∧
        List.Forall₂ (fun i a => pyListGet categories i = Except.ok a)
          [(0 : Int), 3] ["alt.atheism", "sci.space"]) :=
  ⟨(c9_list_comprehensions [0, 3]).2.2.1 (by decide),
   (c9_list_comprehensions [0, 3]).2.1 ["alt.atheism", "sci.space"] rfl⟩

/-! ## Lemmas about selection and the data-preparation cell -/

theorem listSel_mem (idx : List Nat) (xs : List α) :
    ∀ a ∈ listSel idx xs, a ∈ xs := by
  intro a ha
  unfold listSel at ha
  rw [List.mem_filterMap] at ha
  obtain ⟨i, _, hg⟩ := ha
  exact List.get?_mem hg

theorem listSel_zip (idx : List Nat) (xs : List α) (ys : List β)
    (h : xs.length = ys.length) :
    listSel idx (xs.zip ys) = (listSel idx xs).zip (listSel idx ys) := by
  induction idx with
  | nil => rfl
  | cons i rest ih =>
      unfold listSel at ih ⊢
      simp only [List.filterMap_cons]
      rcases hx : xs.get? i with _ | a
      · have hxl : xs.length ≤ i := List.get?_eq_none.1 hx
        have hy : ys.get? i = none := List.get?_eq_none.2 (by omega)
        have hz : (xs.zip ys).get? i = none := by
          rw [List.get?_eq_none, List.length_zip]
          omega
        rw [hy, hz, ih]
      · have hia : i < xs.length := by
          by_contra hc
          rw [List.get?_eq_none.2 (by omega)] at hx
          cases hx
        rcases hy : ys.get? i with _ | b
        · have := List.get?_eq_none.1 hy
          omega
        · have hz : (xs.zip ys).get? i = some (a, b) :=
            (List.get?_zip_eq_some xs ys (a, b) i).2 ⟨hx, hy⟩

          rw [hz, ih]
          rfl

theorem listSel_length_eq (idx : List Nat) (xs : List α) (ys : List β)
    (h : xs.length = ys.length) :
    (listSel idx xs).length = (listSel idx ys).length := by
  induction idx with
  | nil => rfl
  | cons i rest ih =>
      unfold listSel at ih ⊢
      simp only [List.filterMap_cons]
      rcases hx : xs.get? i with _ | a
      · have hxl : xs.length ≤ i := List.get?_eq_none.1 hx
        rw [List.get?_eq_none.2 (by omega)]
        exact ih
      · have hia : i < xs.length := by
          by_contra hc
          rw [List.get?_eq_none.2 (by omega)] at hx
          cases hx
        rcases hy : ys.get? i with _ | b
        · have := List.get?_eq_none.1 hy
          omega
        · simp only [List.length_cons, ih]

theorem train_test_split_inv (docs : List String) (target : List Int)
    (perm : List Nat) (nTest : Nat)
    (q : List String × List String × List Int × List Int)
    (h : train_test_split docs target perm nTest = Except.ok q) :
    docs.length = target.length ∧
    q = (listSel (perm.drop nTest) docs, listSel (perm.take nTest) docs,
         listSel (perm.drop nTest) target, listSel (perm.take nTest) target) := by
  unfold train_test_split at h
  by_cases hl : docs.length = target.length
  · rw [if_pos hl] at h
    cases h
    exact ⟨hl, rfl⟩
  · rw [if_neg hl] at h
    cases h

theorem cell8_inv (env : Env) (p : Prep)
    (h : (cell8 env).res = Except.ok p) :
    ∃ dtr, env.fetch_20newsgroups trainFetchArgs = Except.ok dtr ∧
      ∃ dTr dVa yTr yVa,
        train_test_split dtr.data dtr.target (env.splitPerm dtr.data.length)
          (env.splitNTest dtr.data.length) = Except.ok (dTr, dVa, yTr, yVa) ∧
        env.transformErr vectorizerTrain dTr = none ∧
        env.transformErr vectorizerTrain dVa = none ∧
        p = ⟨⟨vectorizerTrain.n_features, dTr.map (env.hashRow vectorizerTrain)⟩,
             ⟨vectorizerTrain.n_features, dVa.map (env.hashRow vectorizerTrain)⟩,
             yTr, yVa, dTr, dVa⟩ := by
  rcases hf : env.fetch_20newsgroups trainFetchArgs with e | dtr
  · simp [cell8, call, emit, hf, M.bind_ok, M.bind_error, M.pure_def] at h
  · rcases hs : train_test_split dtr.data dtr.target
        (env.splitPerm dtr.data.length) (env.splitNTest dtr.data.length)
      with e | q
    · simp [cell8, call, emit, hf, hs, M.bind_ok, M.bind_error, M.pure_def] at h
    · rcases q with ⟨dTr, dVa, yTr, yVa⟩
      rcases ht1 : env.transformErr vectorizerTrain dTr with _ | e1
      · rcases ht2 : env.transformErr vectorizerTrain dVa with _ | e2
        · refine ⟨dtr, rfl, dTr, dVa, yTr, yVa, hs, ht1, ht2, ?_⟩
          simp [cell8, call, emit, transform, hf, hs, ht1, ht2,
            M.bind_ok, M.bind_error, M.pure_def] at h
          exact h.symm
        · simp [cell8, call, emit, transform, hf, hs, ht1, ht2,
            M.bind_ok, M.bind_error, M.pure_def] at h
      · simp [cell8, call, emit, transform, hf, hs, ht1,
          M.bind_ok, M.bind_error, M.pure_def] at h

/-- C6: every feature/label pair the notebook constructs is row-aligned:
the training and validation matrices have one row per document and as many
rows as their label vectors have entries, each row is the hash of the
document at the same position, positionally paired documents and labels are
pairs of the fetched training bunch, and the test matrix (when the external
fetch returns a length-consistent bunch) has as many rows as `y_test`. -/
theorem c6_row_alignment (env : Env) (p : Prep)
    (h : (cell8 env).res = Except.ok p) :
    (p.docs_train.length = p.y_train.length ∧
     p.docs_validation.length = p.y_validation.length ∧
     p.X_train.rows.length = p.y_train.length ∧
     p.X_validation.rows.length = p.y_validation.length) ∧
    (p.X_train.rows = p.docs_train.map (env.hashRow vectorizerTrain) ∧
     p.X_validation.rows = p.docs_validation.map (env.hashRow vectorizerTrain)) ∧
    (∃ dtr, env.fetch_20newsgroups trainFetchArgs = Except.ok dtr ∧
      dtr.data.length = dtr.target.length ∧
      (∀ pr ∈ p.docs_train.zip p.y_train, pr ∈ dtr.data.zip dtr.target) ∧
      (∀ pr ∈ p.docs_validation.zip p.y_validation, pr ∈ dtr.data.zip dtr.target)) ∧
    (∀ dte X, env.fetch_20newsgroups testFetchArgs = Except.ok dte →
      dte.data.length = dte.target.length →
      transform env vectorizerTest dte.data = Except.ok X →
      X.rows.length = dte.target.length) := by
  obtain ⟨dtr, hf, dTr, dVa, yTr, yVa, hs, ht1, ht2, hp⟩ := cell8_inv env p h
  obtain ⟨hlen, hq⟩ := train_test_split_inv _ _ _ _ _ hs
  obtain ⟨h1, h2, h3, h4⟩ : dTr = listSel ((env.splitPerm dtr.data.length).drop
        (env.splitNTest dtr.data.length)) dtr.data ∧
      dVa = listSel ((env.splitPerm dtr.data.length).take
        (env.splitNTest dtr.data.length)) dtr.data ∧
      yTr = listSel ((env.splitPerm dtr.data.length).drop
        (env.splitNTest dtr.data.length)) dtr.target ∧
      yVa = listSel ((env.splitPerm dtr.data.length).take
        (env.splitNTest dtr.data.length)) dtr.target := by
    have := hq
    cases this
    exact ⟨rfl, rfl, rfl, rfl⟩
  subst hp
  have hdtl : dTr.length = yTr.length := by
    rw [h1, h3]; exact listSel_length_eq _ _ _ hlen
  have hdvl : dVa.length = yVa.length := by
    rw [h2, h4]; exact listSel_length_eq _ _ _ hlen
  refine ⟨⟨hdtl, hdvl, ?_, ?_⟩, ⟨rfl, rfl⟩, ⟨dtr, hf, hlen, ?_, ?_⟩, ?_⟩
  · simpa using hdtl
  · simpa using hdvl
  · intro pr hpr
    rw [h1, h3, ← listSel_zip _ _ _ hlen] at hpr
    exact listSel_mem _ _ pr hpr
  · intro pr hpr
    rw [h2, h4, ← listSel_zip _ _ _ hlen] at hpr
    exact listSel_mem _ _ pr hpr
  · intro dte X hfe hlte htr
    rcases hte : env.transformErr vectorizerTest dte.data with _ | e
    · unfold transform at htr
      rw [hte] at htr
      cases htr
      simpa using hlte
    · unfold transform at htr
      rw [hte] at htr
      cases htr

/-- C6, witness: the alignment theorem applied to the sample environment. -/
theorem c6_row_alignment_witness :
    (cell8 sampleEnv).res = Except.ok samplePrep ∧
    samplePrep.X_train.rows.length = samplePrep.y_train.length ∧
    (transform sampleEnv vectorizerTest sampleTest.data = Except.ok sampleXtest ∧
      sampleXtest.rows.length = sampleTest.target.length) :=
  ⟨rfl,
   (c6_row_alignment sampleEnv samplePrep rfl).1.2.2.1,
   rfl,
   (c6_row_alignment sampleEnv samplePrep rfl).2.2.2 sampleTest sampleXtest
     rfl rfl rfl⟩

/-! ## The two vectorizers -/

theorem transform_inv (env : Env) (p : HVParams) (docs : List String)
    (X : SMatrix) (h : transform env p docs = Except.ok X) :
    env.transformErr p docs = none ∧
    X = ⟨p.n_features, docs.map (env.hashRow p)⟩ := by
  unfold transform at h
  rcases ht : env.transformErr p docs with _ | e <;> rw [ht] at h
  · cases h; exact ⟨rfl, rfl⟩
  · cases h

/-- C8: the evaluation-time vectorizer is constructed with exactly the same
arguments as the training-time one and (hashing being stateless) denotes the
same document-to-row function; every successful `transform` yields a matrix
with 2^16 columns and one row per document, in particular `X_train`,
`X_validation` and `X_test` all have 2^16 columns and one row per document. -/
theorem c8_vectorizer_equivalence :
    vectorizerTest = vectorizerTrain ∧
    (∀ (env : Env) (doc : String),
      env.hashRow vectorizerTest doc = env.hashRow vectorizerTrain doc) ∧
    (∀ (env : Env) (docs : List String) (X : SMatrix),
      transform env vectorizerTrain docs = Except.ok X →
      X.nCols = 2 ^ 16 ∧ X.rows.length = docs.length ∧
      X.rows = docs.map (env.hashRow vectorizerTrain)) ∧
    (∀ (env : Env) (p : Prep), (cell8 env).res = Except.ok p →
      p.X_train.nCols = 2 ^ 16 ∧ p.X_validation.nCols = 2 ^ 16 ∧
      p.X_train.rows.length = p.docs_train.length ∧
      p.X_validation.rows.length = p.docs_validation.length) ∧
    (∀ (env : Env) (dte : Dataset) (X : SMatrix),
      env.fetch_20newsgroups testFetchArgs = Except.ok dte →
      transform env vectorizerTest dte.data = Except.ok X →
      X.nCols = 2 ^ 16 ∧ X.rows.length = dte.data.length) := by
  refine ⟨rfl, fun _ _ => rfl, ?_, ?_, ?_⟩
  · intro env docs X h
    obtain ⟨-, hX⟩ := transform_inv env vectorizerTrain docs X h
    subst hX
    exact ⟨rfl, by simp, rfl⟩
  · intro env p h
    obtain ⟨dtr, hf, dTr, dVa, yTr, yVa, hs, ht1, ht2, hp⟩ := cell8_inv env p h
    subst hp
    exact ⟨rfl, rfl, by simp, by simp⟩
  · intro env dte X hfe h
    obtain ⟨-, hX⟩ := transform_inv env vectorizerTest dte.data X h
    subst hX
    exact ⟨rfl, by simp⟩

/-- C8, witness: the vectorizer theorem applied to the sample environment's
test documents. -/
theorem c8_vectorizer_equivalence_witness :
    transform sampleEnv vectorizerTrain sampleTest.data = Except.ok sampleXtest ∧
    (sampleXtest.nCols = 2 ^ 16 ∧
      sampleXtest.rows.length = sampleTest.data.length ∧
      sampleXtest.rows = sampleTest.data.map (sampleEnv.hashRow vectorizerTrain)) :=
  ⟨rfl, c8_vectorizer_equivalence.2.2.1 sampleEnv sampleTest.data sampleXtest rfl⟩

/-- C7: the evaluation data is fetched with `subset='test'` over the same
four categories (and the same removals) as the training fetch; whenever the
external corpus keeps the two subsets disjoint, the test documents are
disjoint from the training and validation documents; the test data is
vectorized by the same hashing function as the training data; and the
confusion-matrix inputs are positionally aligned: the i-th predicted string
names the prediction for the i-th test row and the i-th true string names
the i-th test label. -/
theorem c7_heldout_evaluation (env : Env) :
    (testFetchArgs.subset = "test" ∧ trainFetchArgs.subset = "train" ∧
     testFetchArgs.categories = trainFetchArgs.categories ∧
     testFetchArgs.remove = trainFetchArgs.remove ∧
     vectorizerTest = vectorizerTrain) ∧
    (∀ (p : Prep) (dtr dte : Dataset),
      (cell8 env).res = Except.ok p →
      env.fetch_20newsgroups trainFetchArgs = Except.ok dtr →
      env.fetch_20newsgroups testFetchArgs = Except.ok dte →
      (∀ s ∈ dte.data, s ∉ dtr.data) →
      (∀ s ∈ p.docs_train, s ∈ dtr.data) ∧
      (∀ s ∈ p.docs_validation, s ∈ dtr.data) ∧
      (∀ s ∈ dte.data, s ∉ p.docs_train ∧ s ∉ p.docs_validation) ∧
      (∀ X : SMatrix, transform env vectorizerTest dte.data = Except.ok X →
        X.rows = dte.data.map (env.hashRow vectorizerTrain) ∧
        (∀ (m : Nat) (yp : List Int),
          env.predict m X = Except.ok yp →
          yp.length = X.rows.length →
          ∀ ps ts, pyListComp categories yp = Except.ok ps →
            pyListComp categories dte.target = Except.ok ts →
            ps.length = dte.data.length ∧
            (dte.data.length = dte.target.length →
              ts.length = dte.data.length) ∧
            List.Forall₂ (fun i a => pyListGet categories i = Except.ok a) yp ps ∧
            List.Forall₂ (fun i a => pyListGet categories i = Except.ok a)
              dte.target ts))) := by
  refine ⟨⟨rfl, rfl, rfl, rfl, rfl⟩, ?_⟩
  intro p dtr dte hc8 hftr hfte hdisj
  obtain ⟨dtr2, hf2, dTr, dVa, yTr, yVa, hs, ht1, ht2, hp⟩ := cell8_inv env p hc8
  have hdd : dtr2 = dtr := by
    rw [hftr] at hf2
    exact (Except.ok.inj hf2).symm
  subst hdd
  obtain ⟨hlenEq, hq⟩ := train_test_split_inv _ _ _ _ _ hs
  obtain ⟨e1, e2, e3, e4⟩ :
      dTr = listSel ((env.splitPerm dtr2.data.length).drop
        (env.splitNTest dtr2.data.length)) dtr2.data ∧
      dVa = listSel ((env.splitPerm dtr2.data.length).take
        (env.splitNTest dtr2.data.length)) dtr2.data ∧
      yTr = listSel ((env.splitPerm dtr2.data.length).drop
        (env.splitNTest dtr2.data.length)) dtr2.target ∧
      yVa = listSel ((env.splitPerm dtr2.data.length).take
        (env.splitNTest dtr2.data.length)) dtr2.target := by
    cases hq
    exact ⟨rfl, rfl, rfl, rfl⟩
  have htrmem : ∀ s ∈ p.docs_train, s ∈ dtr2.data := by
    subst hp
    intro s hsm
    have hsm2 : s ∈ dTr := hsm
    rw [e1] at hsm2
    exact listSel_mem _ _ s hsm2
  have hvamem : ∀ s ∈ p.docs_validation, s ∈ dtr2.data := by
    subst hp
    intro s hsm
    have hsm2 : s ∈ dVa := hsm
    rw [e2] at hsm2
    exact listSel_mem _ _ s hsm2
  refine ⟨htrmem, hvamem, ?_, ?_⟩
  · intro s hs
    exact ⟨fun hmem => hdisj s hs (htrmem s hmem),
           fun hmem => hdisj s hs (hvamem s hmem)⟩
  · intro X hX
    obtain ⟨-, hXe⟩ := transform_inv env vectorizerTest dte.data X hX
    subst hXe
    refine ⟨rfl, ?_⟩
    intro m yp hpred hlen ps ts hps hts
    have hf1 := pyListComp_ok_forall₂ categories yp ps hps
    have hf2 := pyListComp_ok_forall₂ categories dte.target ts hts
    have hps_len : ps.length = dte.data.length := by
      have := hf1.length_eq
      simp only [List.length_map] at hlen
      omega
    refine ⟨hps_len, ?_, hf1, hf2⟩
    intro hde
    have := hf2.length_eq
    omega

/-- C7, witness: the evaluation theorem applied to the sample environment,
whose test documents are disjoint from its training documents. -/
theorem c7_heldout_evaluation_witness :
    (∀ s ∈ sampleTest.data,
      s ∉ samplePrep.docs_train ∧ s ∉ samplePrep.docs_validation) ∧
    ["alt.atheism", "alt.atheism"].length = sampleTest.data.length :=
  have T := (c7_heldout_evaluation sampleEnv).2 samplePrep sampleTrain sampleTest
    rfl rfl rfl (by decide)
  ⟨T.2.2.1,
   ((T.2.2.2 sampleXtest rfl).2 9 [0, 0] rfl rfl
      ["alt.atheism", "alt.atheism"] ["talk.religion.misc", "alt.atheism"]
      rfl rfl).1⟩

/-! ## Lemmas about the child-run loop as a whole -/

theorem childPure_inv (env : Env) (c : Nat) (k : Int)
    (row : List (String × PyVal))
    (h : childPure env c = Except.ok (k, row)) :
    ∃ props ms s, env.get_properties c = Except.ok props ∧
      env.get_metrics c = Except.ok ms ∧
      pyDictGet props "iteration" = Except.ok s ∧
      pyIntOfString s = Except.ok k ∧
      row = ms.filter (fun kv => kv.2.isFloat) := by
  rcases hp : env.get_properties c with ep | props
  · simp [childPure, hp, exc_bind_error] at h
  · rcases hm : env.get_metrics c with em | ms
    · simp [childPure, hp, hm, exc_bind_ok, exc_bind_error] at h
    · rcases hs : pyDictGet props "iteration" with es | s
      · simp [childPure, hp, hm, hs, exc_bind_ok, exc_bind_error] at h
      · rcases hk : pyIntOfString s with ek | k2
        · simp [childPure, hp, hm, hs, hk, exc_bind_ok, exc_bind_error] at h
        · simp [childPure, hp, hm, hs, hk, exc_bind_ok, exc_bind_error] at h
          exact ⟨props, ms, s, rfl, rfl, hs, h.1 ▸ hk, h.2.symm⟩

theorem childrenLoop_res_step (env : Env) (c : Nat) (rest : List Nat)
    (d : List (Int × List (String × PyVal))) (k : Int)
    (row : List (String × PyVal))
    (h : childPure env c = Except.ok (k, row)) :
    (childrenLoop env (c :: rest) d).res =
      (childrenLoop env rest (dictInsert d k row)).res := by
  obtain ⟨props, ms, s, hp, hm, hs, hk, hrow⟩ := childPure_inv env c k row h
  subst hrow
  simp [childrenLoop, call, liftE, hp, hm, hs, hk, M.bind_ok, M.bind_error, M.pure_def]

theorem childrenLoop_res_err_head (env : Env) (c : Nat) (rest : List Nat)
    (d : List (Int × List (String × PyVal))) (e : PyErr)
    (h : childPure env c = Except.error e) :
    (childrenLoop env (c :: rest) d).res = Except.error e := by
  rcases hp : env.get_properties c with ep | props
  · simp [childPure, hp, exc_bind_error] at h
    subst h
    simp [childrenLoop, call, liftE, hp, M.bind_ok, M.bind_error, M.pure_def]
  · rcases hm : env.get_metrics c with em | ms
    · simp [childPure, hp, hm, exc_bind_ok, exc_bind_error] at h
      subst h
      simp [childrenLoop, call, liftE, hp, hm, M.bind_ok, M.bind_error, M.pure_def]
    · rcases hs : pyDictGet props "iteration" with es | s
      · simp [childPure, hp, hm, hs, exc_bind_ok, exc_bind_error] at h
        subst h
        simp [childrenLoop, call, liftE, hp, hm, hs, M.bind_ok, M.bind_error, M.pure_def]
      · rcases hk : pyIntOfString s with ek | k2
        · simp [childPure, hp, hm, hs, hk, exc_bind_ok, exc_bind_error] at h
          subst h
          simp [childrenLoop, call, liftE, hp, hm, hs, hk,
            M.bind_ok, M.bind_error, M.pure_def]
        · simp [childPure, hp, hm, hs, hk, exc_bind_ok, exc_bind_error] at h

theorem childrenLoop_res_append_err (env : Env) (pre : List Nat) (c : Nat)
    (rest : List Nat) (e : PyErr)
    (hclean : ∀ c2 ∈ pre, (childPure env c2).isOk = true)
    (herr : childPure env c = Except.error e) :
    ∀ d, (childrenLoop env (pre ++ c :: rest) d).res = Except.error e := by
  induction pre with
  | nil => exact fun d => childrenLoop_res_err_head env c rest d e herr
  | cons c2 pre2 ih =>
      intro d
      have hok : (childPure env c2).isOk = true := hclean c2 (by simp)
      rcases hv : childPure env c2 with e2 | v
      · rw [hv] at hok; cases hok
      · rcases v with ⟨k, row⟩
        rw [List.cons_append,
          childrenLoop_res_step env c2 (pre2 ++ c :: rest) d k row hv]
        exact ih (fun c3 h3 => hclean c3 (by simp [h3])) _

/-- C4: an exception raised by any external call site of the notebook, when
execution reaches that site, is the notebook's outcome verbatim: no call
site is wrapped in a handler, nothing is retried, and no exception is
translated.  One conjunct per call site, each stating that if every earlier
call succeeded and this call raises `e`, then the notebook's result is
exactly `Except.error e`. -/
theorem c4_error_propagation (env : Env) (e : PyErr) :
    (env.workspace = Except.error e →
      (runNotebook env).res = Except.error e) ∧
    (∀ ws, env.workspace = Except.ok ws →
      env.experimentRes = Except.error e →
      (runNotebook env).res = Except.error e) ∧
    (∀ we, (cell4 env).res = Except.ok we →
      env.set_diagnostics = Except.error e →
      (runNotebook env).res = Except.error e) ∧
    (∀ we, (cell4 env).res = Except.ok we →
      env.set_diagnostics = Except.ok () →
      env.fetch_20newsgroups trainFetchArgs = Except.error e →
      (runNotebook env).res = Except.error e) ∧
    (∀ we dtr, (cell4 env).res = Except.ok we →
      env.set_diagnostics = Except.ok () →
      env.fetch_20newsgroups trainFetchArgs = Except.ok dtr →
      train_test_split dtr.data dtr.target (env.splitPerm dtr.data.length)
        (env.splitNTest dtr.data.length) = Except.error e →
      (runNotebook env).res = Except.error e) ∧
    (∀ we dtr q, (cell4 env).res = Except.ok we →
      env.set_diagnostics = Except.ok () →
      env.fetch_20newsgroups trainFetchArgs = Except.ok dtr →
      train_test_split dtr.data dtr.target (env.splitPerm dtr.data.length)
        (env.splitNTest dtr.data.length) = Except.ok q →
      transform env vectorizerTrain q.1 = Except.error e →
      (runNotebook env).res = Except.error e) ∧
    (∀ we dtr q X1, (cell4 env).res = Except.ok we →
      env.set_diagnostics = Except.ok () →
      env.fetch_20newsgroups trainFetchArgs = Except.ok dtr →
      train_test_split dtr.data dtr.target (env.splitPerm dtr.data.length)
        (env.splitNTest dtr.data.length) = Except.ok q →
      transform env vectorizerTrain q.1 = Except.ok X1 →
      transform env vectorizerTrain q.2.1 = Except.error e →
      (runNotebook env).res = Except.error e) ∧
    (∀ we p, (cell4 env).res = Except.ok we →
      env.set_diagnostics = Except.ok () →
      (cell8 env).res = Except.ok p →
      env.configRes = Except.error e →
      (runNotebook env).res = Except.error e) ∧
    (∀ we p, (cell4 env).res = Except.ok we →
      env.set_diagnostics = Except.ok () →
      (cell8 env).res = Except.ok p →
      env.configRes = Except.ok () →
      env.submitRun = Except.error e →
      (runNotebook env).res = Except.error e) ∧
    (∀ we p run, (cell4 env).res = Except.ok we →
      env.set_diagnostics = Except.ok () →
      (cell8 env).res = Except.ok p →
      env.configRes = Except.ok () →
      env.submitRun = Except.ok run →
      env.runDetailsRes = Except.error e →
      (runNotebook env).res = Except.error e) ∧
    (∀ we p run, (cell4 env).res = Except.ok we →
      env.set_diagnostics = Except.ok () →
      (cell8 env).res = Except.ok p →
      env.configRes = Except.ok () →
      env.submitRun = Except.ok run →
      env.runDetailsRes = Except.ok () →
      env.get_children = Except.error e →
      (runNotebook env).res = Except.error e) ∧
    (∀ we p run pre c rest, (cell4 env).res = Except.ok we →
      env.set_diagnostics = Except.ok () →
      (cell8 env).res = Except.ok p →
      env.configRes = Except.ok () →
      env.submitRun = Except.ok run →
      env.runDetailsRes = Except.ok () →
      env.get_children = Except.ok (pre ++ c :: rest) →
      (∀ c2 ∈ pre, (childPure env c2).isOk = true) →
      env.get_properties c = Except.error e →
      (runNotebook env).res = Except.error e) ∧
    (∀ we p run pre c rest props, (cell4 env).res = Except.ok we →
      env.set_diagnostics = Except.ok () →
      (cell8 env).res = Except.ok p →
      env.configRes = Except.ok () →
      env.submitRun = Except.ok run →
      env.runDetailsRes = Except.ok () →
      env.get_children = Except.ok (pre ++ c :: rest) →
      (∀ c2 ∈ pre, (childPure env c2).isOk = true) →
      env.get_properties c = Except.ok props →
      env.get_metrics c = Except.error e →
      (runNotebook env).res = Except.error e) ∧
    (∀ we p run d, (cell4 env).res = Except.ok we →
      env.set_diagnostics = Except.ok () →
      (cell8 env).res = Except.ok p →
      env.configRes = Except.ok () →
      env.submitRun = Except.ok run →
      (cell15 env run).res = Except.ok () →
      (cell17 env run).res = Except.ok d →
      env.get_output = Except.error e →
      (runNotebook env).res = Except.error e) ∧
    (∀ we p run d out, (cell4 env).res = Except.ok we →
      env.set_diagnostics = Except.ok () →
      (cell8 env).res = Except.ok p →
      env.configRes = Except.ok () →
      env.submitRun = Except.ok run →
      (cell15 env run).res = Except.ok () →
      (cell17 env run).res = Except.ok d →
      env.get_output = Except.ok out →
      env.register_model = Except.error e →
      (runNotebook env).res = Except.error e) ∧
    (∀ we p run d out, (cell4 env).res = Except.ok we →
      env.set_diagnostics = Except.ok () →
      (cell8 env).res = Except.ok p →
      env.configRes = Except.ok () →
      env.submitRun = Except.ok run →
      (cell15 env run).res = Except.ok () →
      (cell17 env run).res = Except.ok d →
      env.get_output = Except.ok out →
      env.register_model = Except.ok () →
      env.load_digits = Except.error e →
      (runNotebook env).res = Except.error e) ∧
    (∀ we p run d out, (cell4 env).res = Except.ok we →
      env.set_diagnostics = Except.ok () →
      (cell8 env).res = Except.ok p →
      env.configRes = Except.ok () →
      env.submitRun = Except.ok run →
      (cell15 env run).res = Except.ok () →
      (cell17 env run).res = Except.ok d →
      env.get_output = Except.ok out →
      env.register_model = Except.ok () →
      env.load_digits = Except.ok 0 →
      env.fetch_20newsgroups testFetchArgs = Except.error e →
      (runNotebook env).res = Except.error e) ∧
    (∀ we p run d out dte, (cell4 env).res = Except.ok we →
      env.set_diagnostics = Except.ok () →
      (cell8 env).res = Except.ok p →
      env.configRes = Except.ok () →
      env.submitRun = Except.ok run →
      (cell15 env run).res = Except.ok () →
      (cell17 env run).res = Except.ok d →
      env.get_output = Except.ok out →
      env.register_model = Except.ok () →
      env.load_digits = Except.ok 0 →
      env.fetch_20newsgroups testFetchArgs = Except.ok dte →
      transform env vectorizerTest dte.data = Except.error e →
      (runNotebook env).res = Except.error e) ∧
    (∀ we p run d out dte X, (cell4 env).res = Except.ok we →
      env.set_diagnostics = Except.ok () →
      (cell8 env).res = Except.ok p →
      env.configRes = Except.ok () →
      env.submitRun = Except.ok run →
      (cell15 env run).res = Except.ok () →
      (cell17 env run).res = Except.ok d →
      env.get_output = Except.ok out →
      env.register_model = Except.ok () →
      env.load_digits = Except.ok 0 →
      env.fetch_20newsgroups testFetchArgs = Except.ok dte →
      transform env vectorizerTest dte.data = Except.ok X →
      env.predict out.2 X = Except.error e →
      (runNotebook env).res = Except.error e) ∧
    (∀ we p run d out dte X yp ps ts, (cell4 env).res = Except.ok we →
      env.set_diagnostics = Except.ok () →
      (cell8 env).res = Except.ok p →
      env.configRes = Except.ok () →
      env.submitRun = Except.ok run →
      (cell15 env run).res = Except.ok () →
      (cell17 env run).res = Except.ok d →
      env.get_output = Except.ok out →
      env.register_model = Except.ok () →
      env.load_digits = Except.ok 0 →
      env.fetch_20newsgroups testFetchArgs = Except.ok dte →
      transform env vectorizerTest dte.data = Except.ok X →
      env.predict out.2 X = Except.ok yp →
      pyListComp categories yp = Except.ok ps →
      pyListComp categories dte.target = Except.ok ts →
      env.confusionMatrix ts ps = Except.error e →
      (runNotebook env).res = Except.error e) := by
  refine ⟨?_, ?_, ?_, ?_, ?_, ?_, ?_, ?_, ?_, ?_, ?_, ?_, ?_, ?_, ?_, ?_,
    ?_, ?_, ?_, ?_⟩
  · intro h1
    simp [runNotebook, cell4, call, emit, M.res_bind, h1]
  · intro ws h1 h2
    simp [runNotebook, cell4, call, emit, M.res_bind, h1, h2]
  · intro we h1 h2
    simp [runNotebook, cell6, call, M.res_bind, h1, h2]
  · intro we h1 h2 h3
    simp [runNotebook, cell6, cell8, call, emit, M.res_bind, h1, h2, h3]
  · intro we dtr h1 h2 h3 h4
    simp [runNotebook, cell6, cell8, call, emit, M.res_bind, h1, h2, h3, h4]
  · intro we dtr q h1 h2 h3 h4 h5
    simp [runNotebook, cell6, cell8, call, emit, M.res_bind, h1, h2, h3, h4, h5]
  · intro we dtr q X1 h1 h2 h3 h4 h5 h6
    simp [runNotebook, cell6, cell8, call, emit, M.res_bind,
      h1, h2, h3, h4, h5, h6]
  · intro we p h1 h2 h3 h4
    simp [runNotebook, cell6, cell10, call, emit, M.res_bind, h1, h2, h3, h4]
  · intro we p h1 h2 h3 h4 h5
    simp [runNotebook, cell6, cell10, cell12, call, emit, M.res_bind,
      h1, h2, h3, h4, h5]
  · intro we p run h1 h2 h3 h4 h5 h6
    simp [runNotebook, cell6, cell10, cell12, cell15, call, emit, M.res_bind,
      h1, h2, h3, h4, h5, h6]
  · intro we p run h1 h2 h3 h4 h5 h6 h7
    simp [runNotebook, cell6, cell10, cell12, cell15, cell17, call, emit,
      M.res_bind, h1, h2, h3, h4, h5, h6, h7]
  · intro we p run pre c rest h1 h2 h3 h4 h5 h6 h7 h8 h9
    have hloop : ∀ d, (childrenLoop env (pre ++ c :: rest) d).res =
        Except.error e := by
      apply childrenLoop_res_append_err env pre c rest e h8
      simp [childPure, h9, exc_bind_error]
    simp [runNotebook, cell6, cell10, cell12, cell15, cell17, call, emit,
      M.res_bind, h1, h2, h3, h4, h5, h6, h7, hloop]
  · intro we p run pre c rest props h1 h2 h3 h4 h5 h6 h7 h8 h9 h10
    have hloop : ∀ d, (childrenLoop env (pre ++ c :: rest) d).res =
        Except.error e := by
      apply childrenLoop_res_append_err env pre c rest e h8
      simp [childPure, h9, h10, exc_bind_ok, exc_bind_error]
    simp [runNotebook, cell6, cell10, cell12, cell15, cell17, call, emit,
      M.res_bind, h1, h2, h3, h4, h5, h6, h7, hloop]
  · intro we p run d h1 h2 h3 h4 h5 h6 h7 h8
    simp [runNotebook, cell6, cell10, cell12, cell20, call, emit, M.res_bind,
      h1, h2, h3, h4, h5, h6, h7, h8]
  · intro we p run d out h1 h2 h3 h4 h5 h6 h7 h8 h9
    simp [runNotebook, cell6, cell10, cell12, cell20, cell26, call, emit,
      M.res_bind, h1, h2, h3, h4, h5, h6, h7, h8, h9]
  · intro we p run d out h1 h2 h3 h4 h5 h6 h7 h8 h9 h10
    simp [runNotebook, cell6, cell10, cell12, cell20, cell26, cell28, call,
      emit, M.res_bind, h1, h2, h3, h4, h5, h6, h7, h8, h9, h10]
  · intro we p run d out h1 h2 h3 h4 h5 h6 h7 h8 h9 h10 h11
    simp [runNotebook, cell6, cell10, cell12, cell20, cell26, cell28, call,
      emit, M.res_bind, h1, h2, h3, h4, h5, h6, h7, h8, h9, h10, h11]
  · intro we p run d out dte h1 h2 h3 h4 h5 h6 h7 h8 h9 h10 h11 h12
    simp [runNotebook, cell6, cell10, cell12, cell20, cell26, cell28, call,
      emit, M.res_bind, h1, h2, h3, h4, h5, h6, h7, h8, h9, h10, h11, h12]
  · intro we p run d out dte X h1 h2 h3 h4 h5 h6 h7 h8 h9 h10 h11 h12 h13
    simp [runNotebook, cell6, cell10, cell12, cell20, cell26, cell28, call,
      emit, liftE, M.res_bind, h1, h2, h3, h4, h5, h6, h7, h8, h9, h10, h11,
      h12, h13]
  · intro we p run d out dte X yp ps ts h1 h2 h3 h4 h5 h6 h7 h8 h9 h10 h11
      h12 h13 h14 h15 h16
    simp [runNotebook, cell6, cell10, cell12, cell20, cell26, cell28, call,
      emit, liftE, M.res_bind, h1, h2, h3, h4, h5, h6, h7, h8, h9, h10, h11,
      h12, h13, h14, h15, h16]

/-- C4, witness: under an environment whose dataset fetch raises, the
notebook's outcome is that exact exception (the fetch-site conjunct of the
propagation theorem applied at a concrete environment). -/
theorem c4_error_propagation_witness :
    (runNotebook envFailFetch).res = Except.error (PyErr.ext "urlopen" 404) :=
  (c4_error_propagation envFailFetch (PyErr.ext "urlopen" 404)).2.2.2.1
    (⟨"ws", "sub", "rg", "eastus"⟩, 1) rfl rfl rfl

/-! ## Trace characterizations, cell by cell -/

theorem cell4_trace_cases (env : Env) :
    (cell4 env).trace = [Event.workspaceFromConfig] ∨
    (∃ ws, env.workspace = Except.ok ws ∧
      (cell4 env).trace =
        [Event.workspaceFromConfig,
         Event.experimentCreate ws.name experiment_name]) ∨
    (∃ ws, env.workspace = Except.ok ws ∧
      (cell4 env).trace =
        [Event.workspaceFromConfig,
         Event.experimentCreate ws.name experiment_name,
         Event.setPandasOption, Event.displayDF]) := by
  rcases hw : env.workspace with e | ws
  · left
    simp [cell4, call, emit, hw, M.bind_ok, M.bind_error, M.pure_def]
  · rcases hx : env.experimentRes with e | ex
    · right; left
      exact ⟨ws, rfl, by simp [cell4, call, emit, hw, hx, M.bind_ok, M.bind_error, M.pure_def]⟩
    · right; right
      exact ⟨ws, rfl, by simp [cell4, call, emit, hw, hx, M.bind_ok, M.bind_error, M.pure_def]⟩

theorem cell6_trace (env : Env) :
    (cell6 env).trace = [Event.setDiagnostics true] := rfl

theorem cell8_trace_cases (env : Env) :
    (cell8 env).trace = [Event.fetchNews trainFetchArgs] ∨
    (∃ dtr, env.fetch_20newsgroups trainFetchArgs = Except.ok dtr ∧
      ((cell8 env).trace =
        [Event.fetchNews trainFetchArgs,
         Event.trainTestSplit dtr.data.length] ∨
       (∃ q, train_test_split dtr.data dtr.target
            (env.splitPerm dtr.data.length) (env.splitNTest dtr.data.length) =
            Except.ok q ∧
        ((cell8 env).trace =
          [Event.fetchNews trainFetchArgs,
           Event.trainTestSplit dtr.data.length,
           Event.hvTransform vectorizerTrain q.1.length] ∨
         (cell8 env).trace =
          [Event.fetchNews trainFetchArgs,
           Event.trainTestSplit dtr.data.length,
           Event.hvTransform vectorizerTrain q.1.length,
           Event.hvTransform vectorizerTrain q.2.1.length] ∨
         (cell8 env).trace =
          [Event.fetchNews trainFetchArgs,
           Event.trainTestSplit dtr.data.length,
           Event.hvTransform vectorizerTrain q.1.length,
           Event.hvTransform vectorizerTrain q.2.1.length,
           Event.displayDF])))) := by
  rcases hf : env.fetch_20newsgroups trainFetchArgs with e | dtr
  · left
    simp [cell8, call, emit, hf, M.bind_ok, M.bind_error, M.pure_def]
  · right
    refine ⟨dtr, rfl, ?_⟩
    rcases hs : train_test_split dtr.data dtr.target
        (env.splitPerm dtr.data.length) (env.splitNTest dtr.data.length)
      with e | q
    · left
      simp [cell8, call, emit, hf, hs, M.bind_ok, M.bind_error, M.pure_def]
    · right
      refine ⟨q, rfl, ?_⟩
      rcases ht1 : env.transformErr vectorizerTrain q.1 with _ | e1
      · rcases ht2 : env.transformErr vectorizerTrain q.2.1 with _ | e2
        · right; right
          simp [cell8, call, emit, transform, hf, hs, ht1, ht2,
            M.bind_ok, M.bind_error, M.pure_def]
        · right; left
          simp [cell8, call, emit, transform, hf, hs, ht1, ht2,
            M.bind_ok, M.bind_error, M.pure_def]
      · left
        simp [cell8, call, emit, transform, hf, hs, ht1,
          M.bind_ok, M.bind_error, M.pure_def]

theorem cell10_trace (env : Env) (p : Prep) :
    (cell10 env p).trace = [Event.buildConfig (automlConfigRecord p)] := by
  rcases hc : env.configRes with e | u
  · simp [cell10, call, hc, M.bind_ok, M.bind_error, M.pure_def]
  · simp [cell10, call, hc, M.bind_ok, M.bind_error, M.pure_def]

theorem cell12_trace (env : Env) (cfg : List (String × ConfigVal)) :
    (cell12 env cfg).trace = [Event.submit cfg true] := rfl

theorem cell15_trace (env : Env) (run : Nat) :
    (cell15 env run).trace = [Event.runDetailsShow run] := rfl

theorem childrenLoop_trace_mem (env : Env) :
    ∀ (cs : List Nat) (d : List (Int × List (String × PyVal))),
      ∀ ev ∈ (childrenLoop env cs d).trace,
        (∃ c, ev = Event.getProperties c) ∨ (∃ c, ev = Event.getMetrics c)
  | [], d => by
      intro ev hev
      simp [childrenLoop, M.pure_def] at hev
  | c :: rest, d => by
      intro ev hev
      rcases hp : env.get_properties c with ep | props
      · simp [childrenLoop, call, liftE, hp, M.bind_ok, M.bind_error, M.pure_def] at hev
        subst hev
        exact Or.inl ⟨c, rfl⟩
      · rcases hm : env.get_metrics c with em | ms
        · simp [childrenLoop, call, liftE, hp, hm,
            M.bind_ok, M.bind_error, M.pure_def] at hev
          rcases hev with rfl | rfl
          · exact Or.inl ⟨c, rfl⟩
          · exact Or.inr ⟨c, rfl⟩
        · rcases hs : pyDictGet props "iteration" with es | s
          · simp [childrenLoop, call, liftE, hp, hm, hs,
              M.bind_ok, M.bind_error, M.pure_def] at hev
            rcases hev with rfl | rfl
            · exact Or.inl ⟨c, rfl⟩
            · exact Or.inr ⟨c, rfl⟩
          · rcases hk : pyIntOfString s with ek | k
            · simp [childrenLoop, call, liftE, hp, hm, hs, hk,
                M.bind_ok, M.bind_error, M.pure_def] at hev
              rcases hev with rfl | rfl
              · exact Or.inl ⟨c, rfl⟩
              · exact Or.inr ⟨c, rfl⟩
            · simp [childrenLoop, call, liftE, hp, hm, hs, hk,
                M.bind_ok, M.bind_error, M.pure_def] at hev
              rcases hev with rfl | rfl | hev
              · exact Or.inl ⟨c, rfl⟩
              · exact Or.inr ⟨c, rfl⟩
              · exact childrenLoop_trace_mem env rest _ ev hev

theorem cell17_trace_cases (env : Env) (run : Nat) :
    (cell17 env run).trace = [Event.getChildren run] ∨
    (∃ cs, env.get_children = Except.ok cs ∧
      ((cell17 env run).trace =
        Event.getChildren run :: (childrenLoop env cs []).trace ∨
       (cell17 env run).trace =
        Event.getChildren run ::
          ((childrenLoop env cs []).trace ++ [Event.displayDF]))) := by
  rcases hc : env.get_children with e | cs
  · left
    simp [cell17, call, emit, hc, M.bind_ok, M.bind_error, M.pure_def]
  · right
    refine ⟨cs, rfl, ?_⟩
    rcases hl : (childrenLoop env cs []).res with el | d
    · left
      simp [cell17, call, emit, hc, M.res_bind, M.trace_bind, hl,
        M.bind_ok, M.bind_error, M.pure_def]
    · right
      simp [cell17, call, emit, hc, M.res_bind, M.trace_bind, hl,
        M.bind_ok, M.bind_error, M.pure_def]

theorem cell20_trace (env : Env) (run : Nat) :
    (cell20 env run).trace = [Event.getOutput run] := rfl

theorem cell26_trace_cases (env : Env) (run : Nat) :
    (cell26 env run).trace = [Event.registerModel "AutoML Model" none] ∨
    (cell26 env run).trace =
      [Event.registerModel "AutoML Model" none,
       Event.displayStr env.model_id] := by
  rcases hr : env.register_model with e | u
  · left
    simp [cell26, call, emit, hr, M.bind_ok, M.bind_error, M.pure_def]
  · right
    simp [cell26, call, emit, hr, M.bind_ok, M.bind_error, M.pure_def]

theorem cell28_trace_cases (env : Env) (model : Nat) :
    (cell28 env model).trace = [Event.loadDigits] ∨
    (cell28 env model).trace =
      [Event.loadDigits, Event.fetchNews testFetchArgs] ∨
    (∃ dte, env.fetch_20newsgroups testFetchArgs = Except.ok dte ∧
      ((cell28 env model).trace =
        [Event.loadDigits, Event.fetchNews testFetchArgs,
         Event.hvTransform vectorizerTest dte.data.length] ∨
       (∃ X, transform env vectorizerTest dte.data = Except.ok X ∧
        ((cell28 env model).trace =
          [Event.loadDigits, Event.fetchNews testFetchArgs,
           Event.hvTransform vectorizerTest dte.data.length,
           Event.predictCall model X.rows.length] ∨
         (∃ ts ps, (cell28 env model).trace =
            [Event.loadDigits, Event.fetchNews testFetchArgs,
             Event.hvTransform vectorizerTest dte.data.length,
             Event.predictCall model X.rows.length,
             Event.confusionMatrixCall ts ps] ∨
          (cell28 env model).trace =
            [Event.loadDigits, Event.fetchNews testFetchArgs,
             Event.hvTransform vectorizerTest dte.data.length,
             Event.predictCall model X.rows.length,
             Event.confusionMatrixCall ts ps,
             Event.printCM, Event.plotCM]))))) := by
  rcases hl : env.load_digits with e | n
  · left
    simp [cell28, call, emit, liftE, hl, M.bind_ok, M.bind_error, M.pure_def]
  · rcases hf : env.fetch_20newsgroups testFetchArgs with e | dte
    · right; left
      simp [cell28, call, emit, liftE, hl, hf, M.bind_ok, M.bind_error, M.pure_def]
    · right; right
      refine ⟨dte, rfl, ?_⟩
      rcases ht : env.transformErr vectorizerTest dte.data with _ | e1
      · rcases hpr : env.predict model
            ⟨vectorizerTest.n_features,
             dte.data.map (env.hashRow vectorizerTest)⟩ with e | yp
        · right
          refine ⟨⟨vectorizerTest.n_features,
            dte.data.map (env.hashRow vectorizerTest)⟩,
            by simp [transform, ht], ?_⟩
          left
          simp [cell28, call, emit, liftE, transform, hl, hf, ht, hpr,
            M.bind_ok, M.bind_error, M.pure_def]
        · rcases hps : pyListComp categories yp with e | ps
          · right
            refine ⟨⟨vectorizerTest.n_features,
              dte.data.map (env.hashRow vectorizerTest)⟩,
              by simp [transform, ht], ?_⟩
            left
            simp [cell28, call, emit, liftE, transform, hl, hf, ht, hpr, hps,
              M.bind_ok, M.bind_error, M.pure_def]
          · rcases hts : pyListComp categories dte.target with e | ts
            · right
              refine ⟨⟨vectorizerTest.n_features,
                dte.data.map (env.hashRow vectorizerTest)⟩,
                by simp [transform, ht], ?_⟩
              left
              simp [cell28, call, emit, liftE, transform, hl, hf, ht, hpr,
                hps, hts, M.bind_ok, M.bind_error, M.pure_def]
            · rcases hcm : env.confusionMatrix ts ps with e | cmv
              · right
                refine ⟨⟨vectorizerTest.n_features,
                  dte.data.map (env.hashRow vectorizerTest)⟩,
                  by simp [transform, ht], ?_⟩
                right
                refine ⟨ts, ps, Or.inl ?_⟩
                simp [cell28, call, emit, liftE, transform, hl, hf, ht, hpr,
                  hps, hts, hcm, M.bind_ok, M.bind_error, M.pure_def]
              · right
                refine ⟨⟨vectorizerTest.n_features,
                  dte.data.map (env.hashRow vectorizerTest)⟩,
                  by simp [transform, ht], ?_⟩
                right
                refine ⟨ts, ps, Or.inr ?_⟩
                simp [cell28, call, emit, liftE, transform, hl, hf, ht, hpr,
                  hps, hts, hcm, M.bind_ok, M.bind_error, M.pure_def]
      · left
        simp [cell28, call, emit, liftE, transform, hl, hf, ht,
          M.bind_ok, M.bind_error, M.pure_def]

/-! ## No operation on the run handle happens before the submit call -/

theorem cell4_no_handleOp (env : Env) (ev : Event)
    (h : ev ∈ (cell4 env).trace) : isHandleOp ev = false := by
  rcases cell4_trace_cases env with h4 | ⟨ws, -, h4⟩ | ⟨ws, -, h4⟩ <;>
    rw [h4] at h <;> simp only [List.mem_cons, List.not_mem_nil, or_false] at h
  · subst h; rfl
  · rcases h with rfl | rfl <;> rfl
  · rcases h with rfl | rfl | rfl | rfl <;> rfl

theorem cell6_no_handleOp (env : Env) (ev : Event)
    (h : ev ∈ (cell6 env).trace) : isHandleOp ev = false := by
  rw [cell6_trace] at h
  simp only [List.mem_cons, List.not_mem_nil, or_false] at h
  subst h; rfl

theorem cell8_no_handleOp (env : Env) (ev : Event)
    (h : ev ∈ (cell8 env).trace) : isHandleOp ev = false := by
  rcases cell8_trace_cases env with h8 | ⟨dtr, -, h8 | ⟨q, -, h8 | h8 | h8⟩⟩ <;>
    rw [h8] at h <;> simp only [List.mem_cons, List.not_mem_nil, or_false] at h
  · subst h; rfl
  · rcases h with rfl | rfl <;> rfl
  · rcases h with rfl | rfl | rfl <;> rfl
  · rcases h with rfl | rfl | rfl | rfl <;> rfl
  · rcases h with rfl | rfl | rfl | rfl | rfl <;> rfl

theorem cell10_no_handleOp (env : Env) (p : Prep) (ev : Event)
    (h : ev ∈ (cell10 env p).trace) : isHandleOp ev = false := by
  rw [cell10_trace] at h
  simp only [List.mem_cons, List.not_mem_nil, or_false] at h
  subst h; rfl

theorem after_submit_mem (t1 t2 : List Event)
    (cfg : List (String × ConfigVal)) (so : Bool) (ev : Event)
    (hpre : ∀ x ∈ t1, isHandleOp x = false)
    (hmem : ev ∈ t1 ++ Event.submit cfg so :: t2)
    (hop : isHandleOp ev = true) : ev ∈ t2 := by
  rcases List.mem_append.1 hmem with h | h
  · rw [hpre ev h] at hop; cases hop
  · rcases List.mem_cons.1 h with rfl | h
    · cases hop
    · exact h

/-- C5: execution is a single linear sequence of events, and every
operation the notebook performs on the returned run handle (the RunDetails
display, `get_children`, `get_output`, `register_model`) occurs strictly
after the (synchronous, per the notebook's own markdown) `submit` event in
that sequence. -/
theorem c5_submit_before_handle_ops (env : Env) (ev : Event)
    (hmem : ev ∈ (runNotebook env).trace) (hop : isHandleOp ev = true) :
    ∃ t1 t2 cfg, (runNotebook env).trace =
      t1 ++ Event.submit cfg true :: t2 ∧ ev ∈ t2 := by
  rcases r4 : (cell4 env).res with e4 | we
  · have htr : (runNotebook env).trace = (cell4 env).trace := by
      simp [runNotebook, M.trace_bind, r4]
    rw [htr] at hmem
    rw [cell4_no_handleOp env ev hmem] at hop
    cases hop
  · rcases r6 : (cell6 env).res with e6 | u6
    · have htr : (runNotebook env).trace =
          (cell4 env).trace ++ (cell6 env).trace := by
        simp [runNotebook, M.trace_bind, r4, r6]
      rw [htr] at hmem
      rcases List.mem_append.1 hmem with h | h
      · rw [cell4_no_handleOp env ev h] at hop; cases hop
      · rw [cell6_no_handleOp env ev h] at hop; cases hop
    · rcases r8 : (cell8 env).res with e8 | p
      · have htr : (runNotebook env).trace =
            (cell4 env).trace ++ ((cell6 env).trace ++ (cell8 env).trace) := by
          simp [runNotebook, M.trace_bind, r4, r6, r8]
        rw [htr] at hmem
        rcases List.mem_append.1 hmem with h | h
        · rw [cell4_no_handleOp env ev h] at hop; cases hop
        · rcases List.mem_append.1 h with h | h
          · rw [cell6_no_handleOp env ev h] at hop; cases hop
          · rw [cell8_no_handleOp env ev h] at hop; cases hop
      · rcases r10 : (cell10 env p).res with e10 | cfg
        · have htr : (runNotebook env).trace =
              (cell4 env).trace ++ ((cell6 env).trace ++
                ((cell8 env).trace ++ (cell10 env p).trace)) := by
            simp [runNotebook, M.trace_bind, r4, r6, r8, r10]
          rw [htr] at hmem
          rcases List.mem_append.1 hmem with h | h
          · rw [cell4_no_handleOp env ev h] at hop; cases hop
          · rcases List.mem_append.1 h with h | h
            · rw [cell6_no_handleOp env ev h] at hop; cases hop
            · rcases List.mem_append.1 h with h | h
              · rw [cell8_no_handleOp env ev h] at hop; cases hop
              · rw [cell10_no_handleOp env p ev h] at hop; cases hop
        · rcases r12 : env.submitRun with e12 | run
          · have htr : (runNotebook env).trace =
                ((cell4 env).trace ++ (cell6 env).trace ++ (cell8 env).trace ++
                  (cell10 env p).trace) ++ Event.submit cfg true :: [] := by
              simp [runNotebook, cell12, call, M.trace_bind, M.res_bind,
                r4, r6, r8, r10, r12, List.append_assoc]
            rw [htr] at hmem
            have := after_submit_mem _ _ cfg true ev ?_ hmem hop
            · cases this
            · intro x hx
              rcases List.mem_append.1 hx with h | h
              · rcases List.mem_append.1 h with h | h
                · rcases List.mem_append.1 h with h | h
                  · exact cell4_no_handleOp env x h
                  · exact cell6_no_handleOp env x h
                · exact cell8_no_handleOp env x h
              · exact cell10_no_handleOp env p x h
          · have htr : (runNotebook env).trace =
                ((cell4 env).trace ++ (cell6 env).trace ++ (cell8 env).trace ++
                  (cell10 env p).trace) ++ Event.submit cfg true ::
                  ((cell15 env run >>= fun _ =>
                    cell17 env run >>= fun _ =>
                    cell20 env run >>= fun out =>
                    cell26 env run >>= fun _ =>
                    cell28 env out.2).trace) := by
              simp [runNotebook, cell12, call, M.trace_bind, M.res_bind,
                r4, r6, r8, r10, r12, List.append_assoc]
            refine ⟨_, _, cfg, htr, ?_⟩
            rw [htr] at hmem
            refine after_submit_mem _ _ cfg true ev ?_ hmem hop
            intro x hx
            rcases List.mem_append.1 hx with h | h
            · rcases List.mem_append.1 h with h | h
              · rcases List.mem_append.1 h with h | h
                · exact cell4_no_handleOp env x h
                · exact cell6_no_handleOp env x h
              · exact cell8_no_handleOp env x h
            · exact cell10_no_handleOp env p x h

/-- C5, witness: in the sample environment's trace, the `get_output` call on
the run handle occurs after the submit event. -/
theorem c5_submit_before_handle_ops_witness :
    ∃ t1 t2 cfg, (runNotebook sampleEnv).trace =
      t1 ++ Event.submit cfg true :: t2 ∧ Event.getOutput 100 ∈ t2 :=
  c5_submit_before_handle_ops sampleEnv (Event.getOutput 100) (by decide) rfl

/-! ## The configuration record is built once and submitted unmodified -/

theorem cell4_no_cfg (env : Env) (ev : Event)
    (h : ev ∈ (cell4 env).trace) : isCfgCarrier ev = false := by
  rcases cell4_trace_cases env with h4 | ⟨ws, -, h4⟩ | ⟨ws, -, h4⟩ <;>
    rw [h4] at h <;> simp only [List.mem_cons, List.not_mem_nil, or_false] at h
  · subst h; rfl
  · rcases h with rfl | rfl <;> rfl
  · rcases h with rfl | rfl | rfl | rfl <;> rfl

theorem cell6_no_cfg (env : Env) (ev : Event)
    (h : ev ∈ (cell6 env).trace) : isCfgCarrier ev = false := by
  rw [cell6_trace] at h
  simp only [List.mem_cons, List.not_mem_nil, or_false] at h
  subst h; rfl

theorem cell8_no_cfg (env : Env) (ev : Event)
    (h : ev ∈ (cell8 env).trace) : isCfgCarrier ev = false := by
  rcases cell8_trace_cases env with h8 | ⟨dtr, -, h8 | ⟨q, -, h8 | h8 | h8⟩⟩ <;>
    rw [h8] at h <;> simp only [List.mem_cons, List.not_mem_nil, or_false] at h
  · subst h; rfl
  · rcases h with rfl | rfl <;> rfl
  · rcases h with rfl | rfl | rfl <;> rfl
  · rcases h with rfl | rfl | rfl | rfl <;> rfl
  · rcases h with rfl | rfl | rfl | rfl | rfl <;> rfl

theorem cell17_no_cfg (env : Env) (run : Nat) (ev : Event)
    (h : ev ∈ (cell17 env run).trace) : isCfgCarrier ev = false := by
  rcases cell17_trace_cases env run with h17 | ⟨cs, -, h17 | h17⟩ <;>
    rw [h17] at h
  · simp only [List.mem_cons, List.not_mem_nil, or_false] at h
    subst h; rfl
  · rcases List.mem_cons.1 h with rfl | h
    · rfl
    · rcases childrenLoop_trace_mem env cs [] ev h with ⟨c, rfl⟩ | ⟨c, rfl⟩ <;> rfl
  · rcases List.mem_cons.1 h with rfl | h
    · rfl
    · rcases List.mem_append.1 h with h | h
      · rcases childrenLoop_trace_mem env cs [] ev h with ⟨c, rfl⟩ | ⟨c, rfl⟩ <;>
          rfl
      · simp only [List.mem_cons, List.not_mem_nil, or_false] at h
        subst h; rfl

theorem cell26_no_cfg (env : Env) (run : Nat) (ev : Event)
    (h : ev ∈ (cell26 env run).trace) : isCfgCarrier ev = false := by
  rcases cell26_trace_cases env run with h26 | h26 <;> rw [h26] at h <;>
    simp only [List.mem_cons, List.not_mem_nil, or_false] at h
  · subst h; rfl
  · rcases h with rfl | rfl <;> rfl

theorem cell28_no_cfg (env : Env) (model : Nat) (ev : Event)
    (h : ev ∈ (cell28 env model).trace) : isCfgCarrier ev = false := by
  rcases cell28_trace_cases env model with h28 | h28 |
      ⟨dte, -, h28 | ⟨X, -, h28 | ⟨ts, ps, h28 | h28⟩⟩⟩ <;>
    rw [h28] at h <;> simp only [List.mem_cons, List.not_mem_nil, or_false] at h
  · subst h; rfl
  · rcases h with rfl | rfl <;> rfl
  · rcases h with rfl | rfl | rfl <;> rfl
  · rcases h with rfl | rfl | rfl | rfl <;> rfl
  · rcases h with rfl | rfl | rfl | rfl | rfl <;> rfl
  · rcases h with rfl | rfl | rfl | rfl | rfl | rfl | rfl <;> rfl

theorem restChain_no_cfg (env : Env) (run : Nat) (ev : Event)
    (h : ev ∈ ((cell15 env run >>= fun _ =>
      cell17 env run >>= fun _ =>
      cell20 env run >>= fun out =>
      cell26 env run >>= fun _ =>
      cell28 env out.2) : M Unit).trace) : isCfgCarrier ev = false := by
  rcases r15 : (cell15 env run).res with e | u
  · have htr := M.trace_bind (cell15 env run)
      (fun _ => cell17 env run >>= fun _ =>
        cell20 env run >>= fun out =>
        cell26 env run >>= fun _ => cell28 env out.2)
    rw [r15] at htr
    rw [htr] at h
    rw [cell15_trace] at h
    simp only [List.mem_cons, List.not_mem_nil, or_false] at h
    subst h; rfl
  · rcases r17 : (cell17 env run).res with e | d
    · have h2 : ev ∈ (cell15 env run).trace ++ (cell17 env run).trace := by
        have htr := M.trace_bind (cell15 env run)
          (fun _ => cell17 env run >>= fun _ =>
            cell20 env run >>= fun out =>
            cell26 env run >>= fun _ => cell28 env out.2)
        rw [r15] at htr
        have htr2 := M.trace_bind (cell17 env run)
          (fun _ => cell20 env run >>= fun out =>
            cell26 env run >>= fun _ => cell28 env out.2)
        rw [r17] at htr2
        rw [htr, htr2] at h
        exact h
      rcases List.mem_append.1 h2 with h3 | h3
      · rw [cell15_trace] at h3
        simp only [List.mem_cons, List.not_mem_nil, or_false] at h3
        subst h3; rfl
      · exact cell17_no_cfg env run ev h3
    · rcases r20 : (cell20 env run).res with e | out
      · have h2 : ev ∈ (cell15 env run).trace ++ ((cell17 env run).trace ++
            (cell20 env run).trace) := by
          simp only [M.trace_bind, r15, r17, r20] at h
          simpa using h
        rcases List.mem_append.1 h2 with h3 | h3
        · rw [cell15_trace] at h3
          simp only [List.mem_cons, List.not_mem_nil, or_false] at h3
          subst h3; rfl
        · rcases List.mem_append.1 h3 with h4 | h4
          · exact cell17_no_cfg env run ev h4
          · rw [cell20_trace] at h4
            simp only [List.mem_cons, List.not_mem_nil, or_false] at h4
            subst h4; rfl
      · rcases r26 : (cell26 env run).res with e | u2
        · have h2 : ev ∈ (cell15 env run).trace ++ ((cell17 env run).trace ++
              ((cell20 env run).trace ++ (cell26 env run).trace)) := by
            simp only [M.trace_bind, r15, r17, r20, r26] at h
            simpa using h
          rcases List.mem_append.1 h2 with h3 | h3
          · rw [cell15_trace] at h3
            simp only [List.mem_cons, List.not_mem_nil, or_false] at h3
            subst h3; rfl
          · rcases List.mem_append.1 h3 with h4 | h4
            · exact cell17_no_cfg env run ev h4
            · rcases List.mem_append.1 h4 with h5 | h5
              · rw [cell20_trace] at h5
                simp only [List.mem_cons, List.not_mem_nil, or_false] at h5
                subst h5; rfl
              · exact cell26_no_cfg env run ev h5
        · have h2 : ev ∈ (cell15 env run).trace ++ ((cell17 env run).trace ++
              ((cell20 env run).trace ++ ((cell26 env run).trace ++
                (cell28 env out.2).trace))) := by
            simp only [M.trace_bind, r15, r17, r20, r26] at h
            simpa using h
          rcases List.mem_append.1 h2 with h3 | h3
          · rw [cell15_trace] at h3
            simp only [List.mem_cons, List.not_mem_nil, or_false] at h3
            subst h3; rfl
          · rcases List.mem_append.1 h3 with h4 | h4
            · exact cell17_no_cfg env run ev h4
            · rcases List.mem_append.1 h4 with h5 | h5
              · rw [cell20_trace] at h5
                simp only [List.mem_cons, List.not_mem_nil, or_false] at h5
                subst h5; rfl
              · rcases List.mem_append.1 h5 with h6 | h6
                · exact cell26_no_cfg env run ev h6
                · exact cell28_no_cfg env out.2 ev h6

theorem cfg_true_elim {C : Prop} (h : true = false) : C := Bool.noConfusion h

theorem cell10_res_cases (env : Env) (p : Prep) :
    (cell10 env p).res = Except.ok (automlConfigRecord p) ∨
    ∃ e, (cell10 env p).res = Except.error e := by
  rcases hc : env.configRes with e | u
  · right
    exact ⟨e, by simp [cell10, call, hc, M.bind_ok, M.bind_error, M.pure_def]⟩
  · left
    simp [cell10, call, hc, M.bind_ok, M.bind_error, M.pure_def]

/-- C3, counterexample: the configuration record built by the notebook's
`AutoMLConfig` call does not consist of exactly the ten keys the claim
enumerates: it also contains `debug_log` (and `verbosity`). -/
theorem c3_counterexample :
    (automlConfigRecord samplePrep).map Prod.fst ≠ specConfigKeys ∧
    "debug_log" ∈ (automlConfigRecord samplePrep).map Prod.fst ∧
    "debug_log" ∉ specConfigKeys := by
  refine ⟨?_, by decide, by decide⟩
  decide

/-- C3, amended: the configuration record is the flat key/value set built by
the single `AutoMLConfig` call — the ten enumerated options together with
`debug_log='automl_errors.log'` and `verbosity=logging.INFO` — and every
record carried by a build or submit event of any run is exactly the record
built from the cell-8 data, so the record reaches `experiment.submit`
unmodified (with `show_output=True`). -/
theorem c3_config_record (env : Env) :
    (∀ p : Prep,
      (automlConfigRecord p).map Prod.fst =
        ["task", "debug_log", "primary_metric", "max_time_sec", "iterations",
         "preprocess", "verbosity", "X", "y", "X_valid", "y_valid", "path"] ∧
      ("task", ConfigVal.s "classification") ∈ automlConfigRecord p ∧
      ("primary_metric", ConfigVal.s "AUC_weighted") ∈ automlConfigRecord p ∧
      ("max_time_sec", ConfigVal.n 3600) ∈ automlConfigRecord p ∧
      ("iterations", ConfigVal.n 5) ∈ automlConfigRecord p ∧
      ("preprocess", ConfigVal.b false) ∈ automlConfigRecord p ∧
      ("X", ConfigVal.mat p.X_train) ∈ automlConfigRecord p ∧
      ("y", ConfigVal.labels p.y_train) ∈ automlConfigRecord p ∧
      ("X_valid", ConfigVal.mat p.X_validation) ∈ automlConfigRecord p ∧
      ("y_valid", ConfigVal.labels p.y_validation) ∈ automlConfigRecord p ∧
      ("path", ConfigVal.s project_folder) ∈ automlConfigRecord p ∧
      ("debug_log", ConfigVal.s "automl_errors.log") ∈ automlConfigRecord p ∧
      ("verbosity", ConfigVal.verbosityINFO) ∈ automlConfigRecord p) ∧
    (∀ c1, Event.buildConfig c1 ∈ (runNotebook env).trace →
      ∃ p, (cell8 env).res = Except.ok p ∧ c1 = automlConfigRecord p) ∧
    (∀ c2 so, Event.submit c2 so ∈ (runNotebook env).trace →
      ∃ p, (cell8 env).res = Except.ok p ∧ c2 = automlConfigRecord p ∧
        so = true) ∧
    (∀ c1 c2 so, Event.buildConfig c1 ∈ (runNotebook env).trace →
      Event.submit c2 so ∈ (runNotebook env).trace → c1 = c2) := by
  have hbuild : ∀ c1, Event.buildConfig c1 ∈ (runNotebook env).trace →
      ∃ p, (cell8 env).res = Except.ok p ∧ c1 = automlConfigRecord p := by
    intro c1 hmem
    rcases r4 : (cell4 env).res with e4 | we
    · have htr : (runNotebook env).trace = (cell4 env).trace := by
        simp [runNotebook, M.trace_bind, r4]
      rw [htr] at hmem
      exact cfg_true_elim (cell4_no_cfg env _ hmem)
    · rcases r6 : (cell6 env).res with e6 | u6
      · have htr : (runNotebook env).trace =
            (cell4 env).trace ++ (cell6 env).trace := by
          simp [runNotebook, M.trace_bind, r4, r6]
        rw [htr] at hmem
        rcases List.mem_append.1 hmem with h | h
        · exact cfg_true_elim (cell4_no_cfg env _ h)
        · exact cfg_true_elim (cell6_no_cfg env _ h)
      · rcases r8 : (cell8 env).res with e8 | p
        · have htr : (runNotebook env).trace =
              (cell4 env).trace ++ ((cell6 env).trace ++ (cell8 env).trace) := by
            simp [runNotebook, M.trace_bind, r4, r6, r8]
          rw [htr] at hmem
          rcases List.mem_append.1 hmem with h | h
          · exact cfg_true_elim (cell4_no_cfg env _ h)
          · rcases List.mem_append.1 h with h | h
            · exact cfg_true_elim (cell6_no_cfg env _ h)
            · exact cfg_true_elim (cell8_no_cfg env _ h)
        · rcases r10 : (cell10 env p).res with e10 | cfg
          · have htr : (runNotebook env).trace =
                (cell4 env).trace ++ ((cell6 env).trace ++
                  ((cell8 env).trace ++ (cell10 env p).trace)) := by
              simp [runNotebook, M.trace_bind, r4, r6, r8, r10]
            rw [htr] at hmem
            rcases List.mem_append.1 hmem with h | h
            · exact cfg_true_elim (cell4_no_cfg env _ h)
            · rcases List.mem_append.1 h with h | h
              · exact cfg_true_elim (cell6_no_cfg env _ h)
              · rcases List.mem_append.1 h with h | h
                · exact cfg_true_elim (cell8_no_cfg env _ h)
                · rw [cell10_trace] at h
                  simp only [List.mem_cons, List.not_mem_nil, or_false] at h
                  exact ⟨p, rfl, Event.buildConfig.inj h⟩
          · rcases r12 : env.submitRun with e12 | run
            · have htr : (runNotebook env).trace =
                  (cell4 env).trace ++ ((cell6 env).trace ++
                    ((cell8 env).trace ++ ((cell10 env p).trace ++
                      [Event.submit cfg true]))) := by
                simp [runNotebook, cell12, call, M.trace_bind, M.res_bind,
                  r4, r6, r8, r10, r12]
              rw [htr] at hmem
              rcases List.mem_append.1 hmem with h | h
              · exact cfg_true_elim (cell4_no_cfg env _ h)
              · rcases List.mem_append.1 h with h | h
                · exact cfg_true_elim (cell6_no_cfg env _ h)
                · rcases List.mem_append.1 h with h | h
                  · exact cfg_true_elim (cell8_no_cfg env _ h)
                  · rcases List.mem_append.1 h with h | h
                    · rw [cell10_trace] at h
                      simp only [List.mem_cons, List.not_mem_nil, or_false] at h
                      exact ⟨p, rfl, Event.buildConfig.inj h⟩
                    · simp only [List.mem_cons, List.not_mem_nil, or_false] at h
                      cases h
            · have htr : (runNotebook env).trace =
                  (cell4 env).trace ++ ((cell6 env).trace ++
                    ((cell8 env).trace ++ ((cell10 env p).trace ++
                      (Event.submit cfg true ::
                        ((cell15 env run >>= fun _ =>
                          cell17 env run >>= fun _ =>
                          cell20 env run >>= fun out =>
                          cell26 env run >>= fun _ =>
                          cell28 env out.2) : M Unit).trace)))) := by
                simp [runNotebook, cell12, call, M.trace_bind, M.res_bind,
                  r4, r6, r8, r10, r12]
              rw [htr] at hmem
              rcases List.mem_append.1 hmem with h | h
              · exact cfg_true_elim (cell4_no_cfg env _ h)
              · rcases List.mem_append.1 h with h | h
                · exact cfg_true_elim (cell6_no_cfg env _ h)
                · rcases List.mem_append.1 h with h | h
                  · exact cfg_true_elim (cell8_no_cfg env _ h)
                  · rcases List.mem_append.1 h with h | h
                    · rw [cell10_trace] at h
                      simp only [List.mem_cons, List.not_mem_nil, or_false] at h
                      exact ⟨p, rfl, Event.buildConfig.inj h⟩
                    · rcases List.mem_cons.1 h with h | h
                      · cases h
                      · exact cfg_true_elim (restChain_no_cfg env run _ h)
  have hsubmit : ∀ c2 so, Event.submit c2 so ∈ (runNotebook env).trace →
      ∃ p, (cell8 env).res = Except.ok p ∧ c2 = automlConfigRecord p ∧
        so = true := by
    intro c2 so hmem
    rcases r4 : (cell4 env).res with e4 | we
    · have htr : (runNotebook env).trace = (cell4 env).trace := by
        simp [runNotebook, M.trace_bind, r4]
      rw [htr] at hmem
      exact cfg_true_elim (cell4_no_cfg env _ hmem)
    · rcases r6 : (cell6 env).res with e6 | u6
      · have htr : (runNotebook env).trace =
            (cell4 env).trace ++ (cell6 env).trace := by
          simp [runNotebook, M.trace_bind, r4, r6]
        rw [htr] at hmem
        rcases List.mem_append.1 hmem with h | h
        · exact cfg_true_elim (cell4_no_cfg env _ h)
        · exact cfg_true_elim (cell6_no_cfg env _ h)
      · rcases r8 : (cell8 env).res with e8 | p
        · have htr : (runNotebook env).trace =
              (cell4 env).trace ++ ((cell6 env).trace ++ (cell8 env).trace) := by
            simp [runNotebook, M.trace_bind, r4, r6, r8]
          rw [htr] at hmem
          rcases List.mem_append.1 hmem with h | h
          · exact cfg_true_elim (cell4_no_cfg env _ h)
          · rcases List.mem_append.1 h with h | h
            · exact cfg_true_elim (cell6_no_cfg env _ h)
            · exact cfg_true_elim (cell8_no_cfg env _ h)
        · rcases r10 : (cell10 env p).res with e10 | cfg
          · have htr : (runNotebook env).trace =
                (cell4 env).trace ++ ((cell6 env).trace ++
                  ((cell8 env).trace ++ (cell10 env p).trace)) := by
              simp [runNotebook, M.trace_bind, r4, r6, r8, r10]
            rw [htr] at hmem
            rcases List.mem_append.1 hmem with h | h
            · exact cfg_true_elim (cell4_no_cfg env _ h)
            · rcases List.mem_append.1 h with h | h
              · exact cfg_true_elim (cell6_no_cfg env _ h)
              · rcases List.mem_append.1 h with h | h
                · exact cfg_true_elim (cell8_no_cfg env _ h)
                · rw [cell10_trace] at h
                  simp only [List.mem_cons, List.not_mem_nil, or_false] at h
                  cases h
          · have hcfg : cfg = automlConfigRecord p := by
              rcases cell10_res_cases env p with hok | ⟨e, herr⟩
              · rw [r10] at hok
                exact Except.ok.inj hok
              · rw [r10] at herr
                cases herr
            rcases r12 : env.submitRun with e12 | run
            · have htr : (runNotebook env).trace =
                  (cell4 env).trace ++ ((cell6 env).trace ++
                    ((cell8 env).trace ++ ((cell10 env p).trace ++
                      [Event.submit cfg true]))) := by
                simp [runNotebook, cell12, call, M.trace_bind, M.res_bind,
                  r4, r6, r8, r10, r12]
              rw [htr] at hmem
              rcases List.mem_append.1 hmem with h | h
              · exact cfg_true_elim (cell4_no_cfg env _ h)
              · rcases List.mem_append.1 h with h | h
                · exact cfg_true_elim (cell6_no_cfg env _ h)
                · rcases List.mem_append.1 h with h | h
                  · exact cfg_true_elim (cell8_no_cfg env _ h)
                  · rcases List.mem_append.1 h with h | h
                    · rw [cell10_trace] at h
                      simp only [List.mem_cons, List.not_mem_nil, or_false] at h
                      cases h
                    · simp only [List.mem_cons, List.not_mem_nil, or_false] at h
                      obtain ⟨hc, hso⟩ := Event.submit.inj h
                      exact ⟨p, rfl, hc.trans hcfg, hso⟩
            · have htr : (runNotebook env).trace =
                  (cell4 env).trace ++ ((cell6 env).trace ++
                    ((cell8 env).trace ++ ((cell10 env p).trace ++
                      (Event.submit cfg true ::
                        ((cell15 env run >>= fun _ =>
                          cell17 env run >>= fun _ =>
                          cell20 env run >>= fun out =>
                          cell26 env run >>= fun _ =>
                          cell28 env out.2) : M Unit).trace)))) := by
                simp [runNotebook, cell12, call, M.trace_bind, M.res_bind,
                  r4, r6, r8, r10, r12]
              rw [htr] at hmem
              rcases List.mem_append.1 hmem with h | h
              · exact cfg_true_elim (cell4_no_cfg env _ h)
              · rcases List.mem_append.1 h with h | h
                · exact cfg_true_elim (cell6_no_cfg env _ h)
                · rcases List.mem_append.1 h with h | h
                  · exact cfg_true_elim (cell8_no_cfg env _ h)
                  · rcases List.mem_append.1 h with h | h
                    · rw [cell10_trace] at h
                      simp only [List.mem_cons, List.not_mem_nil, or_false] at h
                      cases h
                    · rcases List.mem_cons.1 h with h | h
                      · obtain ⟨hc, hso⟩ := Event.submit.inj h
                        exact ⟨p, rfl, hc.trans hcfg, hso⟩
                      · exact cfg_true_elim (restChain_no_cfg env run _ h)
  refine ⟨?_, hbuild, hsubmit, ?_⟩
  · intro p
    refine ⟨rfl, ?_, ?_, ?_, ?_, ?_, ?_, ?_, ?_, ?_, ?_, ?_, ?_⟩ <;>
      simp [automlConfigRecord]
  · intro c1 c2 so h1 h2
    obtain ⟨p1, hp1, e1⟩ := hbuild c1 h1
    obtain ⟨p2, hp2, e2, -⟩ := hsubmit c2 so h2
    rw [hp1] at hp2
    have := Except.ok.inj hp2
    subst this
    rw [e1, e2]

/-- C3, witness: the amended theorem applied to the sample environment's
trace, whose build event carries the record of the sample preparation. -/
theorem c3_config_record_witness :
    ∃ p, (cell8 sampleEnv).res = Except.ok p ∧
      automlConfigRecord samplePrep = automlConfigRecord p :=
  (c3_config_record sampleEnv).2.1 (automlConfigRecord samplePrep) (by decide)

/-! ## The listed-step markers of each cell -/

theorem filterMap_const_replicate {f : α → Option β} {c : β} :
    ∀ l : List α, (∀ x ∈ l, f x = some c) →
      l.filterMap f = List.replicate l.length c
  | [], _ => rfl
  | x :: xs, h => by
      rw [List.filterMap_cons, h x (by simp), List.length_cons,
        List.replicate_succ,
        filterMap_const_replicate xs (fun y hy => h y (by simp [hy]))]

theorem cell4_steps_sub (env : Env) :
    (cell4 env).trace.filterMap stepOf = [] ∨
    (cell4 env).trace.filterMap stepOf = [1] := by
  rcases cell4_trace_cases env with h4 | ⟨ws, -, h4⟩ | ⟨ws, -, h4⟩ <;> rw [h4]
  · left; rfl
  · right; rfl
  · right; rfl

theorem cell4_steps_ok (env : Env) (we : Workspace × Nat)
    (h : (cell4 env).res = Except.ok we) :
    (cell4 env).trace.filterMap stepOf = [1] := by
  rcases hw : env.workspace with e | ws
  · simp [cell4, call, emit, hw, M.bind_ok, M.bind_error, M.pure_def] at h
  · rcases hx : env.experimentRes with e | ex
    · simp [cell4, call, emit, hw, hx, M.bind_ok, M.bind_error, M.pure_def] at h
    · simp [cell4, call, emit, hw, hx, M.bind_ok, M.bind_error, M.pure_def,
        stepOf]

theorem cell6_steps (env : Env) :
    (cell6 env).trace.filterMap stepOf = [] := rfl

theorem cell8_steps (env : Env) :
    (cell8 env).trace.filterMap stepOf = [2] := by
  rcases cell8_trace_cases env with h8 | ⟨dtr, -, h8 | ⟨q, -, h8 | h8 | h8⟩⟩ <;>
    rw [h8] <;> rfl

theorem cell10_steps (env : Env) (p : Prep) :
    (cell10 env p).trace.filterMap stepOf = [3] := by
  rw [cell10_trace]; rfl

theorem cell12_steps (env : Env) (cfg : List (String × ConfigVal)) :
    (cell12 env cfg).trace.filterMap stepOf = [4] := rfl

theorem cell15_steps (env : Env) (run : Nat) :
    (cell15 env run).trace.filterMap stepOf = [5] := rfl

theorem childrenLoop_steps (env : Env) (cs : List Nat)
    (d : List (Int × List (String × PyVal))) :
    ∃ j, (childrenLoop env cs d).trace.filterMap stepOf =
      List.replicate j 5 := by
  refine ⟨(childrenLoop env cs d).trace.length, ?_⟩
  apply filterMap_const_replicate
  intro x hx
  rcases childrenLoop_trace_mem env cs d x hx with ⟨c, rfl⟩ | ⟨c, rfl⟩ <;> rfl

theorem cell17_steps (env : Env) (run : Nat) :
    ∃ k, (cell17 env run).trace.filterMap stepOf = List.replicate (k + 1) 5 := by
  rcases cell17_trace_cases env run with h17 | ⟨cs, -, h17 | h17⟩ <;> rw [h17]
  · exact ⟨0, rfl⟩
  · obtain ⟨j, hj⟩ := childrenLoop_steps env cs []
    refine ⟨j, ?_⟩
    rw [List.filterMap_cons_some
      (show stepOf (Event.getChildren run) = some 5 from rfl), hj]
    rfl
  · obtain ⟨j, hj⟩ := childrenLoop_steps env cs []
    refine ⟨j, ?_⟩
    rw [List.filterMap_cons_some
      (show stepOf (Event.getChildren run) = some 5 from rfl),
      List.filterMap_append, hj]
    have hd : List.filterMap stepOf [Event.displayDF] = [] := rfl
    rw [hd, List.append_nil]
    rfl

theorem cell20_steps (env : Env) (run : Nat) :
    (cell20 env run).trace.filterMap stepOf = [6] := rfl

theorem cell26_steps (env : Env) (run : Nat) :
    (cell26 env run).trace.filterMap stepOf = [] := by
  rcases cell26_trace_cases env run with h26 | h26 <;> rw [h26] <;> rfl

theorem cell28_steps_sub (env : Env) (model : Nat) :
    ∃ k, (cell28 env model).trace.filterMap stepOf = List.replicate k 7 := by
  rcases cell28_trace_cases env model with h28 | h28 |
      ⟨dte, -, h28 | ⟨X, -, h28 | ⟨ts, ps, h28 | h28⟩⟩⟩ <;> rw [h28]
  · exact ⟨0, rfl⟩
  · exact ⟨1, rfl⟩
  · exact ⟨1, rfl⟩
  · exact ⟨2, rfl⟩
  · exact ⟨3, rfl⟩
  · exact ⟨3, rfl⟩

theorem cell28_steps_ok (env : Env) (model : Nat)
    (h : (cell28 env model).res = Except.ok ()) :
    (cell28 env model).trace.filterMap stepOf = [7, 7, 7] := by
  rcases hl : env.load_digits with e | n
  · simp [cell28, call, emit, liftE, hl, M.bind_ok, M.bind_error,
      M.pure_def] at h
  · rcases hf : env.fetch_20newsgroups testFetchArgs with e | dte
    · simp [cell28, call, emit, liftE, hl, hf, M.bind_ok, M.bind_error,
        M.pure_def] at h
    · rcases ht : env.transformErr vectorizerTest dte.data with _ | e1
      · rcases hpr : env.predict model
            ⟨vectorizerTest.n_features,
             dte.data.map (env.hashRow vectorizerTest)⟩ with e | yp
        · simp [cell28, call, emit, liftE, transform, hl, hf, ht, hpr,
            M.bind_ok, M.bind_error, M.pure_def] at h
        · rcases hps : pyListComp categories yp with e | ps
          · simp [cell28, call, emit, liftE, transform, hl, hf, ht, hpr, hps,
              M.bind_ok, M.bind_error, M.pure_def] at h
          · rcases hts : pyListComp categories dte.target with e | ts
            · simp [cell28, call, emit, liftE, transform, hl, hf, ht, hpr,
                hps, hts, M.bind_ok, M.bind_error, M.pure_def] at h
            · rcases hcm : env.confusionMatrix ts ps with e | cmv
              · simp [cell28, call, emit, liftE, transform, hl, hf, ht, hpr,
                  hps, hts, hcm, M.bind_ok, M.bind_error, M.pure_def] at h
              · have htr28 : (cell28 env model).trace =
                    [Event.loadDigits, Event.fetchNews testFetchArgs,
                     Event.hvTransform vectorizerTest dte.data.length,
                     Event.predictCall model
                       (dte.data.map (env.hashRow vectorizerTest)).length,
                     Event.confusionMatrixCall ts ps,
                     Event.printCM, Event.plotCM] := by
                  simp [cell28, call, emit, liftE, transform, hl, hf, ht, hpr,
                    hps, hts, hcm, M.bind_ok, M.bind_error, M.pure_def]
                rw [htr28]
                rfl
      · simp [cell28, call, emit, liftE, transform, hl, hf, ht, M.bind_ok,
          M.bind_error, M.pure_def] at h

/-! ## Sortedness of the step sequence -/

theorem sorted_append_le (l1 l2 : List ℕ) (c : ℕ)
    (h1 : List.Sorted (· ≤ ·) l1) (h2 : List.Sorted (· ≤ ·) l2)
    (hb1 : ∀ a ∈ l1, a ≤ c) (hb2 : ∀ b ∈ l2, c ≤ b) :
    List.Sorted (· ≤ ·) (l1 ++ l2) := by
  rw [List.Sorted, List.pairwise_append]
  exact ⟨h1, h2, fun a ha b hb => le_trans (hb1 a ha) (hb2 b hb)⟩

theorem sorted_replicate (k c : ℕ) :
    List.Sorted (· ≤ ·) (List.replicate k c) := by
  induction k with
  | zero => exact List.sorted_nil
  | succ n ih =>
      rw [List.replicate_succ, List.sorted_cons]
      exact ⟨fun b hb => le_of_eq (List.eq_of_mem_replicate hb).symm, ih⟩

theorem sorted_steps_a (m : ℕ) :
    List.Sorted (· ≤ ·) (1 :: 2 :: 3 :: 4 :: 5 :: List.replicate m 5) := by
  refine sorted_append_le [1, 2, 3, 4, 5] _ 5 (by decide)
    (sorted_replicate m 5) (by decide) ?_
  intro b hb
  have := List.eq_of_mem_replicate hb
  omega

theorem sorted_steps_b (m : ℕ) :
    List.Sorted (· ≤ ·)
      (1 :: 2 :: 3 :: 4 :: 5 :: (List.replicate m 5 ++ [6])) := by
  refine sorted_append_le [1, 2, 3, 4, 5] _ 5 (by decide) ?_ (by decide) ?_
  · refine sorted_append_le _ _ 5 (sorted_replicate m 5) (by decide) ?_ ?_
    · intro a ha
      have := List.eq_of_mem_replicate ha
      omega
    · intro b hb
      simp only [List.mem_singleton] at hb
      omega
  · intro b hb
    rcases List.mem_append.1 hb with h | h
    · have := List.eq_of_mem_replicate h
      omega
    · simp only [List.mem_singleton] at h
      omega

theorem sorted_steps_c (m k : ℕ) :
    List.Sorted (· ≤ ·)
      (1 :: 2 :: 3 :: 4 :: 5 ::
        (List.replicate m 5 ++ (6 :: List.replicate k 7))) := by
  have h2 : List.Sorted (· ≤ ·)
      (List.replicate m 5 ++ (6 :: List.replicate k 7)) := by
    refine sorted_append_le _ _ 5 (sorted_replicate m 5) ?_ ?_ ?_
    · rw [List.sorted_cons]
      refine ⟨?_, sorted_replicate k 7⟩
      intro b hb
      have := List.eq_of_mem_replicate hb
      omega
    · intro a ha
      have := List.eq_of_mem_replicate ha
      omega
    · intro b hb
      rcases List.mem_cons.1 hb with rfl | hb
      · omega
      · have := List.eq_of_mem_replicate hb
        omega
  refine sorted_append_le [1, 2, 3, 4, 5] _ 5 (by decide) h2 (by decide) ?_
  intro b hb
  rcases List.mem_append.1 hb with h | h
  · have := List.eq_of_mem_replicate h
    omega
  · rcases List.mem_cons.1 h with rfl | h
    · omega
    · have := List.eq_of_mem_replicate h
      omega

/-- C1: on every run the step markers of the seven listed steps occur in
nondecreasing order (no later-listed step executes before an earlier-listed
one), and on every run that completes without an exception the marker
sequence is exactly steps 1, 2, 3, 4, then the polling/metric markers of
step 5, then step 6, then the three evaluation markers of step 7. -/
theorem c1_linear_step_order (env : Env) :
    List.Sorted (· ≤ ·) (stepsOf env) ∧
    ((runNotebook env).res = Except.ok () →
      ∃ m, stepsOf env =
        [1, 2, 3, 4] ++ (List.replicate (m + 2) 5 ++ [6, 7, 7, 7])) := by
  rcases r4 : (cell4 env).res with e4 | we
  · have hsteps : stepsOf env = (cell4 env).trace.filterMap stepOf := by
      rw [stepsOf]
      have htr : (runNotebook env).trace = (cell4 env).trace := by
        simp [runNotebook, M.trace_bind, r4]
      rw [htr]
    constructor
    · rw [hsteps]
      rcases cell4_steps_sub env with h | h <;> rw [h]
      · exact List.sorted_nil
      · exact List.sorted_singleton 1
    · intro h
      simp [runNotebook, M.res_bind, r4] at h
  · rcases r6 : (cell6 env).res with e6 | u6
    · have hsteps : stepsOf env = [1] := by
        rw [stepsOf]
        have htr : (runNotebook env).trace =
            (cell4 env).trace ++ (cell6 env).trace := by
          simp [runNotebook, M.trace_bind, r4, r6]
        rw [htr, List.filterMap_append, cell4_steps_ok env we r4, cell6_steps]
        rfl
      constructor
      · rw [hsteps]
        exact List.sorted_singleton 1
      · intro h
        simp [runNotebook, M.res_bind, r4, r6] at h
    · rcases r8 : (cell8 env).res with e8 | p
      · have hsteps : stepsOf env = [1] ++ ([] ++ [2]) := by
          rw [stepsOf]
          have htr : (runNotebook env).trace = (cell4 env).trace ++
              ((cell6 env).trace ++ (cell8 env).trace) := by
            simp [runNotebook, M.trace_bind, r4, r6, r8]
          rw [htr, List.filterMap_append, List.filterMap_append,
            cell4_steps_ok env we r4, cell6_steps, cell8_steps]
        constructor
        · rw [hsteps]
          decide
        · intro h
          simp [runNotebook, M.res_bind, r4, r6, r8] at h
      · rcases r10 : (cell10 env p).res with e10 | cfg
        · have hsteps : stepsOf env = [1] ++ ([] ++ ([2] ++ [3])) := by
            rw [stepsOf]
            have htr : (runNotebook env).trace = (cell4 env).trace ++
                ((cell6 env).trace ++ ((cell8 env).trace ++
                  (cell10 env p).trace)) := by
              simp [runNotebook, M.trace_bind, r4, r6, r8, r10]
            rw [htr, List.filterMap_append, List.filterMap_append,
              List.filterMap_append, cell4_steps_ok env we r4, cell6_steps,
              cell8_steps, cell10_steps]
          constructor
          · rw [hsteps]
            decide
          · intro h
            simp [runNotebook, M.res_bind, r4, r6, r8, r10] at h
        · rcases r12 : (cell12 env cfg).res with e12 | run
          · have hsteps : stepsOf env = [1] ++ ([] ++ ([2] ++ ([3] ++ [4]))) := by
              rw [stepsOf]
              have htr : (runNotebook env).trace = (cell4 env).trace ++
                  ((cell6 env).trace ++ ((cell8 env).trace ++
                    ((cell10 env p).trace ++ (cell12 env cfg).trace))) := by
                simp [runNotebook, M.trace_bind, r4, r6, r8, r10, r12]
              rw [htr, List.filterMap_append, List.filterMap_append,
                List.filterMap_append, List.filterMap_append,
                cell4_steps_ok env we r4, cell6_steps, cell8_steps,
                cell10_steps, cell12_steps]
            constructor
            · rw [hsteps]
              decide
            · intro h
              simp [runNotebook, M.res_bind, r4, r6, r8, r10, r12] at h
          · rcases r15 : (cell15 env run).res with e15 | u15
            · have hsteps : stepsOf env =
                  [1] ++ ([] ++ ([2] ++ ([3] ++ ([4] ++ [5])))) := by
                rw [stepsOf]
                have htr : (runNotebook env).trace = (cell4 env).trace ++
                    ((cell6 env).trace ++ ((cell8 env).trace ++
                      ((cell10 env p).trace ++ ((cell12 env cfg).trace ++
                        (cell15 env run).trace)))) := by
                  simp [runNotebook, M.trace_bind, r4, r6, r8, r10, r12, r15]
                rw [htr, List.filterMap_append, List.filterMap_append,
                  List.filterMap_append, List.filterMap_append,
                  List.filterMap_append, cell4_steps_ok env we r4, cell6_steps,
                  cell8_steps, cell10_steps, cell12_steps, cell15_steps]
              constructor
              · rw [hsteps]
                decide
              · intro h
                simp [runNotebook, M.res_bind, r4, r6, r8, r10, r12, r15] at h
            · rcases r17 : (cell17 env run).res with e17 | d
              · obtain ⟨k, hk⟩ := cell17_steps env run
                have hsteps : stepsOf env =
                    [1] ++ ([] ++ ([2] ++ ([3] ++ ([4] ++ ([5] ++
                      List.replicate (k + 1) 5))))) := by
                  rw [stepsOf]
                  have htr : (runNotebook env).trace = (cell4 env).trace ++
                      ((cell6 env).trace ++ ((cell8 env).trace ++
                        ((cell10 env p).trace ++ ((cell12 env cfg).trace ++
                          ((cell15 env run).trace ++
                            (cell17 env run).trace))))) := by
                    simp [runNotebook, M.trace_bind, r4, r6, r8, r10, r12,
                      r15, r17]
                  rw [htr, List.filterMap_append, List.filterMap_append,
                    List.filterMap_append, List.filterMap_append,
                    List.filterMap_append, List.filterMap_append,
                    cell4_steps_ok env we r4, cell6_steps, cell8_steps,
                    cell10_steps, cell12_steps, cell15_steps, hk]
                constructor
                · rw [hsteps]
                  exact sorted_steps_a (k + 1)
                · intro h
                  simp [runNotebook, M.res_bind, r4, r6, r8, r10, r12, r15,
                    r17] at h
              · rcases r20 : (cell20 env run).res with e20 | out
                · obtain ⟨k, hk⟩ := cell17_steps env run
                  have hsteps : stepsOf env =
                      [1] ++ ([] ++ ([2] ++ ([3] ++ ([4] ++ ([5] ++
                        (List.replicate (k + 1) 5 ++ [6])))))) := by
                    rw [stepsOf]
                    have htr : (runNotebook env).trace = (cell4 env).trace ++
                        ((cell6 env).trace ++ ((cell8 env).trace ++
                          ((cell10 env p).trace ++ ((cell12 env cfg).trace ++
                            ((cell15 env run).trace ++
                              ((cell17 env run).trace ++
                                (cell20 env run).trace)))))) := by
                      simp [runNotebook, M.trace_bind, r4, r6, r8, r10, r12,
                        r15, r17, r20]
                    rw [htr, List.filterMap_append, List.filterMap_append,
                      List.filterMap_append, List.filterMap_append,
                      List.filterMap_append, List.filterMap_append,
                      List.filterMap_append, cell4_steps_ok env we r4,
                      cell6_steps, cell8_steps, cell10_steps, cell12_steps,
                      cell15_steps, hk, cell20_steps]
                  constructor
                  · rw [hsteps]
                    exact sorted_steps_b (k + 1)
                  · intro h
                    simp [runNotebook, M.res_bind, r4, r6, r8, r10, r12, r15,
                      r17, r20] at h
                · rcases r26 : (cell26 env run).res with e26 | u26
                  · obtain ⟨k, hk⟩ := cell17_steps env run
                    have hsteps : stepsOf env =
                        [1] ++ ([] ++ ([2] ++ ([3] ++ ([4] ++ ([5] ++
                          (List.replicate (k + 1) 5 ++ ([6] ++ []))))))) := by
                      rw [stepsOf]
                      have htr : (runNotebook env).trace = (cell4 env).trace ++
                          ((cell6 env).trace ++ ((cell8 env).trace ++
                            ((cell10 env p).trace ++ ((cell12 env cfg).trace ++
                              ((cell15 env run).trace ++
                                ((cell17 env run).trace ++
                                  ((cell20 env run).trace ++
                                    (cell26 env run).trace))))))) := by
                        simp [runNotebook, M.trace_bind, r4, r6, r8, r10, r12,
                          r15, r17, r20, r26]
                      rw [htr, List.filterMap_append, List.filterMap_append,
                        List.filterMap_append, List.filterMap_append,
                        List.filterMap_append, List.filterMap_append,
                        List.filterMap_append, List.filterMap_append,
                        cell4_steps_ok env we r4, cell6_steps, cell8_steps,
                        cell10_steps, cell12_steps, cell15_steps, hk,
                        cell20_steps, cell26_steps env run]
                    constructor
                    · rw [hsteps]
                      exact sorted_steps_b (k + 1)
                    · intro h
                      simp [runNotebook, M.res_bind, r4, r6, r8, r10, r12,
                        r15, r17, r20, r26] at h
                  · obtain ⟨k, hk⟩ := cell17_steps env run
                    have hsteps : stepsOf env =
                        [1] ++ ([] ++ ([2] ++ ([3] ++ ([4] ++ ([5] ++
                          (List.replicate (k + 1) 5 ++ ([6] ++ ([] ++
                            (cell28 env out.2).trace.filterMap stepOf)))))))) := by
                      rw [stepsOf]
                      have htr : (runNotebook env).trace = (cell4 env).trace ++
                          ((cell6 env).trace ++ ((cell8 env).trace ++
                            ((cell10 env p).trace ++ ((cell12 env cfg).trace ++
                              ((cell15 env run).trace ++
                                ((cell17 env run).trace ++
                                  ((cell20 env run).trace ++
                                    ((cell26 env run).trace ++
                                      (cell28 env out.2).trace)))))))) := by
                        simp [runNotebook, M.trace_bind, r4, r6, r8, r10, r12,
                          r15, r17, r20, r26]
                      rw [htr, List.filterMap_append, List.filterMap_append,
                        List.filterMap_append, List.filterMap_append,
                        List.filterMap_append, List.filterMap_append,
                        List.filterMap_append, List.filterMap_append,
                        List.filterMap_append, cell4_steps_ok env we r4,
                        cell6_steps, cell8_steps, cell10_steps, cell12_steps,
                        cell15_steps, hk, cell20_steps, cell26_steps env run]
                    constructor
                    · obtain ⟨k7, h7⟩ := cell28_steps_sub env out.2
                      rw [hsteps, h7]
                      exact sorted_steps_c (k + 1) k7
                    · intro h
                      have h28 : (cell28 env out.2).res = Except.ok () := by
                        simp [runNotebook, M.res_bind, r4, r6, r8, r10, r12,
                          r15, r17, r20, r26] at h
                        exact h
                      rw [hsteps, cell28_steps_ok env out.2 h28]
                      exact ⟨k, rfl⟩

/-- C1, witness: a successful sample run, whose step-marker sequence matches
the seven-step shape. -/
theorem c1_linear_step_order_witness :
    ∃ m, stepsOf sampleEnv =
      [1, 2, 3, 4] ++ (List.replicate (m + 2) 5 ++ [6, 7, 7, 7]) :=
  (c1_linear_step_order sampleEnv).2 rfl

/-! ## The non-display effects of each cell -/

theorem cell4_effects_ok (env : Env) (we : Workspace × Nat)
    (h : (cell4 env).res = Except.ok we) :
    (cell4 env).trace.filter isEffect = [Event.setPandasOption] := by
  rcases hw : env.workspace with e | ws
  · simp [cell4, call, emit, hw, M.bind_ok, M.bind_error, M.pure_def] at h
  · rcases hx : env.experimentRes with e | ex
    · simp [cell4, call, emit, hw, hx, M.bind_ok, M.bind_error, M.pure_def] at h
    · simp [cell4, call, emit, hw, hx, M.bind_ok, M.bind_error, M.pure_def,
        isEffect]

theorem cell6_effects (env : Env) :
    (cell6 env).trace.filter isEffect = [Event.setDiagnostics true] := rfl

theorem cell8_effects (env : Env) :
    (cell8 env).trace.filter isEffect = [] := by
  rcases cell8_trace_cases env with h8 | ⟨dtr, -, h8 | ⟨q, -, h8 | h8 | h8⟩⟩ <;>
    rw [h8] <;> rfl

theorem cell10_effects (env : Env) (p : Prep) :
    (cell10 env p).trace.filter isEffect = [] := by
  rw [cell10_trace]; rfl

theorem cell12_effects (env : Env) (cfg : List (String × ConfigVal)) :
    (cell12 env cfg).trace.filter isEffect = [Event.submit cfg true] := rfl

theorem cell15_effects (env : Env) (run : Nat) :
    (cell15 env run).trace.filter isEffect = [] := rfl

theorem cell17_effects (env : Env) (run : Nat) :
    (cell17 env run).trace.filter isEffect = [] := by
  have hloop : ∀ cs, (childrenLoop env cs []).trace.filter isEffect = [] := by
    intro cs
    rw [List.filter_eq_nil_iff]
    intro ev hev
    rcases childrenLoop_trace_mem env cs [] ev hev with ⟨c, rfl⟩ | ⟨c, rfl⟩ <;>
      simp [isEffect]
  rcases cell17_trace_cases env run with h17 | ⟨cs, -, h17 | h17⟩ <;> rw [h17]
  · rfl
  · rw [List.filter_cons_of_neg (by simp [isEffect]), hloop]
  · rw [List.filter_cons_of_neg (by simp [isEffect]), List.filter_append,
      hloop]
    rfl

theorem cell20_effects (env : Env) (run : Nat) :
    (cell20 env run).trace.filter isEffect = [] := rfl

theorem cell26_effects (env : Env) (run : Nat) :
    (cell26 env run).trace.filter isEffect =
      [Event.registerModel "AutoML Model" none] := by
  rcases cell26_trace_cases env run with h26 | h26 <;> rw [h26] <;> rfl

theorem cell28_effects (env : Env) (model : Nat) :
    (cell28 env model).trace.filter isEffect = [] := by
  rcases cell28_trace_cases env model with h28 | h28 |
      ⟨dte, -, h28 | ⟨X, -, h28 | ⟨ts, ps, h28 | h28⟩⟩⟩ <;> rw [h28] <;> rfl

theorem run_ok_effects (env : Env)
    (h : (runNotebook env).res = Except.ok ()) :
    ∃ p, (cell8 env).res = Except.ok p ∧
      effectsOf (runNotebook env).trace =
        [Event.setPandasOption, Event.setDiagnostics true,
         Event.submit (automlConfigRecord p) true,
         Event.registerModel "AutoML Model" none] := by
  rcases r4 : (cell4 env).res with e4 | we
  · simp [runNotebook, M.res_bind, r4] at h
  · rcases r6 : (cell6 env).res with e6 | u6
    · simp [runNotebook, M.res_bind, r4, r6] at h
    · rcases r8 : (cell8 env).res with e8 | p
      · simp [runNotebook, M.res_bind, r4, r6, r8] at h
      · rcases r10 : (cell10 env p).res with e10 | cfg
        · simp [runNotebook, M.res_bind, r4, r6, r8, r10] at h
        · have hcfg : cfg = automlConfigRecord p := by
            rcases cell10_res_cases env p with hok | ⟨e, herr⟩
            · rw [r10] at hok
              exact Except.ok.inj hok
            · rw [r10] at herr
              cases herr
          rcases r12 : (cell12 env cfg).res with e12 | run
          · simp [runNotebook, M.res_bind, r4, r6, r8, r10, r12] at h
          · rcases r15 : (cell15 env run).res with e15 | u15
            · simp [runNotebook, M.res_bind, r4, r6, r8, r10, r12, r15] at h
            · rcases r17 : (cell17 env run).res with e17 | d
              · simp [runNotebook, M.res_bind, r4, r6, r8, r10, r12, r15,
                  r17] at h
              · rcases r20 : (cell20 env run).res with e20 | out
                · simp [runNotebook, M.res_bind, r4, r6, r8, r10, r12, r15,
                    r17, r20] at h
                · rcases r26 : (cell26 env run).res with e26 | u26
                  · simp [runNotebook, M.res_bind, r4, r6, r8, r10, r12, r15,
                      r17, r20, r26] at h
                  · have htr : (runNotebook env).trace = (cell4 env).trace ++
                        ((cell6 env).trace ++ ((cell8 env).trace ++
                          ((cell10 env p).trace ++ ((cell12 env cfg).trace ++
                            ((cell15 env run).trace ++
                              ((cell17 env run).trace ++
                                ((cell20 env run).trace ++
                                  ((cell26 env run).trace ++
                                    (cell28 env out.2).trace)))))))) := by
                      simp [runNotebook, M.trace_bind, r4, r6, r8, r10, r12,
                        r15, r17, r20, r26]
                    refine ⟨p, rfl, ?_⟩
                    rw [effectsOf, htr, List.filter_append,
                      List.filter_append, List.filter_append,
                      List.filter_append, List.filter_append,
                      List.filter_append, List.filter_append,
                      List.filter_append, List.filter_append,
                      cell4_effects_ok env we r4, cell6_effects,
                      cell8_effects, cell10_effects, cell12_effects,
                      cell15_effects, cell17_effects, cell20_effects,
                      cell26_effects, cell28_effects, hcfg]
                    rfl

theorem cell8_agree (e1 e2 : Env) (h : RecordAgree e1 e2) :
    cell8 e1 = cell8 e2 := by
  obtain ⟨-, -, -, hf, hsp, hsn, hh, ht, -, -, -, -, -⟩ := h
  simp only [cell8, transform]
  rw [hf, hsp, hsn, hh, ht]

/-- C2, counterexample: two environments that differ only in a value
contained in a returned record (the `'iteration'` property of the one child
run) produce different non-display effects: the unparseable property makes
the metrics loop raise, so `register_model` never executes in the second
run. -/
theorem c2_counterexample :
    RecordAgree sampleEnv envBadIteration ∧
    effectsOf (runNotebook sampleEnv).trace ≠
      effectsOf (runNotebook envBadIteration).trace := by
  constructor
  · exact ⟨rfl, rfl, rfl, rfl, rfl, rfl, rfl, rfl, rfl, rfl, rfl, rfl, rfl⟩
  · decide

/-- C2, amended: for two executions that differ only in the values contained
in the records returned by the external service and that both complete
without an exception, the non-display effects are identical (an exception
raised while inspecting a returned record can otherwise suppress the
model-registration effect). -/
theorem c2_record_values_effects (e1 e2 : Env) (hagree : RecordAgree e1 e2)
    (h1 : (runNotebook e1).res = Except.ok ())
    (h2 : (runNotebook e2).res = Except.ok ()) :
    effectsOf (runNotebook e1).trace = effectsOf (runNotebook e2).trace := by
  obtain ⟨p1, hp1, he1⟩ := run_ok_effects e1 h1
  obtain ⟨p2, hp2, he2⟩ := run_ok_effects e2 h2
  rw [he1, he2]
  have hc : (cell8 e1).res = (cell8 e2).res := by
    rw [cell8_agree e1 e2 hagree]
  rw [hp1, hp2] at hc
  cases Except.ok.inj hc
  rfl

/-- C2, witness: the amended theorem applied to two concrete environments
that differ in run id, metric values, best run and model id, both of which
complete successfully. -/
theorem c2_record_values_effects_witness :
    effectsOf (runNotebook sampleEnv).trace =
      effectsOf (runNotebook envRecordsVaried).trace :=
  c2_record_values_effects sampleEnv envRecordsVaried
    ⟨rfl, rfl, rfl, rfl, rfl, rfl, rfl, rfl, rfl, rfl, rfl, rfl, rfl⟩ rfl rfl

end NB
